import Mathlib

/-!
Verification development for the flecs rule query engine (src/addons/rules.c).

The definitions below are a shallow embedding of the rule compiler and the
rule virtual machine.  Pure C functions become Lean functions; the mutable
rule/iterator state becomes explicit state records that are threaded through
the functions.  Machine integers are modelled as Nat (ids, counts) or Int
(signed fields holding the -1 / UINT8_MAX sentinels that the C code uses).
C functions that live outside rules.c (the storage layer: id records, the
entity index, trait lookups) are modelled from the specification of the
storage lookup interface; each such definition carries a doc comment saying
so.  Everything defined from rules.c keeps the C function's name.
-/

namespace FlecsRules

/-- Entity ids.  rules.c strips generations before building filters
(ecs_entity_t_lo), so the model works with generation-free 32-bit low ids. -/
abbrev Entity := Nat

/-- Builtin entity ids.  The numerical values are irrelevant to the engine;
only their distinctness from each other and from application entities is
used.  They model the flecs builtin declarations (EcsWildcard, EcsThis,
EcsTransitive, EcsFinal, EcsTransitiveSelf, EcsIsA, EcsChildOf). -/
def ECS_HI_COMPONENT_ID : Nat := 256

def EcsWildcard : Entity := ECS_HI_COMPONENT_ID + 10

def EcsThis : Entity := ECS_HI_COMPONENT_ID + 11

def EcsTransitive : Entity := ECS_HI_COMPONENT_ID + 12

def EcsFinal : Entity := ECS_HI_COMPONENT_ID + 13

def EcsTransitiveSelf : Entity := ECS_HI_COMPONENT_ID + 14

def EcsIsA : Entity := ECS_HI_COMPONENT_ID + 15

def EcsChildOf : Entity := ECS_HI_COMPONENT_ID + 16

def UINT8_MAX : Nat := 255

/-- An ecs_id_t: either a plain component/tag id or a (relation, object)
pair id (the ECS_PAIR role bit of the C encoding becomes a constructor). -/
inductive Id where
  | plain (e : Entity)
  | pair (rel obj : Entity)
deriving DecidableEq, Repr

instance : Inhabited Id := ⟨Id.plain 0⟩

/-- ECS_PAIR_RELATION: high 32 bits of a pair id.  On a plain id the C macro
would return the role-masked high half; it is only applied to pair ids. -/
def Id.pairRelation : Id → Entity
  | .plain e => e
  | .pair r _ => r

/-- ECS_PAIR_OBJECT / ecs_entity_t_lo on an id: the low 32 bits. -/
def Id.lo : Id → Entity
  | .plain e => e
  | .pair _ o => o

/-- ECS_HAS_ROLE(id, PAIR). -/
def Id.isPair : Id → Bool
  | .plain _ => false
  | .pair _ _ => true

/-- ecs_pair(pred, obj). -/
def ecs_pair (pred obj : Entity) : Id := Id.pair pred obj

/-- Modelled from the spec: an archetype (table) is an immutable ordered list
of ids (its type) plus the vector of entities stored in it. -/
structure Table where
  type : List Id
  entities : List Entity
deriving DecidableEq, Repr

/-- Modelled from the spec: the storage layer, reduced to the ordered list of
tables.  Tables are referred to by their index in this list. -/
structure World where
  tables : List Table
deriving DecidableEq, Repr

/-- Modelled from the spec: ecs_id_match.  A wildcard in a position of the
pattern matches any concrete id in the same position. -/
def ecs_id_match : Id → Id → Bool
  | .plain e, .plain p => e == p || p == EcsWildcard
  | .pair r o, .pair pr po =>
      (r == pr || pr == EcsWildcard) && (o == po || po == EcsWildcard)
  | .pair _ _, .plain p => p == EcsWildcard
  | .plain _, .pair _ _ => false

/-- Modelled from the spec: run-time entity validity check (ecs_is_valid).
Id 0 is never a valid entity. -/
def ecs_is_valid (_w : World) (e : Entity) : Bool := e != 0

/-- Modelled from the spec: ecs_get_alive restores the alive entity for a
generation-free low id.  The model is generation-free, so it is the
identity on live ids. -/
def ecs_get_alive (_w : World) (e : Entity) : Entity := e

/-- Modelled from the spec: resolve_entity(entity) -> (table, row).  Returns
the index of the table holding the entity together with its row. -/
def ecs_eis_get (w : World) (e : Entity) : Option (Nat × Nat) :=
  let rec go : List Table → Nat → Option (Nat × Nat)
    | [], _ => none
    | t :: rest, i =>
        match t.entities.findIdx? (fun x => x == e) with
        | some row => some (i, row)
        | none => go rest (i + 1)
  go w.tables 0

/-- Modelled from the spec: has_trait(entity, trait) — whether the entity's
archetype carries the given plain id (used for Transitive, Final,
TransitiveSelf lookups on predicates). -/
def ecs_has_id (w : World) (e : Entity) (idv : Entity) : Bool :=
  match ecs_eis_get w e with
  | none => false
  | some (ti, _) =>
      match w.tables[ti]? with
      | none => false
      | some t => t.type.contains (Id.plain idv)

/-- A table record of an id record: the table (index) and the first column at
which the pattern occurs in the table's type. -/
structure TableRecord where
  table : Nat
  column : Nat
deriving DecidableEq, Repr

/-- Modelled from the spec: the column where a pattern first occurs in a
table's type (flecs_get_table_record, reduced to its column payload). -/
def flecs_get_table_record (w : World) (ti : Option Nat) (pattern : Id) :
    Option Nat :=
  match ti with
  | none => none
  | some ti =>
      match w.tables[ti]? with
      | none => none
      | some t => t.type.findIdx? (fun idv => ecs_id_match idv pattern)

/-- Modelled from the spec: lookup_id_record + id_record_tables.  The ordered
set of table records for a pattern; only non-empty tables appear, in stable
world order. -/
def idRecordTables (w : World) (pattern : Id) : List TableRecord :=
  let rec go : List Table → Nat → List TableRecord
    | [], _ => []
    | t :: rest, i =>
        let tail := go rest (i + 1)
        if t.entities.isEmpty then tail
        else
          match t.type.findIdx? (fun idv => ecs_id_match idv pattern) with
          | some c => ⟨i, c⟩ :: tail
          | none => tail
  go w.tables 0

/-- An id record handle: the materialized list of table records. -/
abbrev IdRecord := List TableRecord

/-- find_tables (rules.c): the id record for an id, or none when it has no
(non-empty) tables. -/
def find_tables (w : World) (idv : Id) : Option IdRecord :=
  let idr := idRecordTables w idv
  if idr.isEmpty then none else some idr

/-- ecs_table_count. -/
def ecs_table_count (w : World) (ti : Option Nat) : Nat :=
  match ti with
  | none => 0
  | some ti =>
      match w.tables[ti]? with
      | none => 0
      | some t => t.entities.length

/-- The type of a table, by table index. -/
def tableType (w : World) (ti : Option Nat) : List Id :=
  match ti with
  | none => []
  | some ti =>
      match w.tables[ti]? with
      | none => []
      | some t => t.type

/-- The entity vector of a table, by table index. -/
def tableEntities (w : World) (ti : Option Nat) : List Entity :=
  match ti with
  | none => []
  | some ti =>
      match w.tables[ti]? with
      | none => []
      | some t => t.entities

/-- table_from_entity (rules.c): the table an entity is stored in. -/
def table_from_entity (w : World) (e : Entity) : Option Nat :=
  match ecs_eis_get w e with
  | none => none
  | some (ti, _) => some ti

/-- rule_get_column (rules.c): the id at a column of a type. -/
def rule_get_column (type : List Id) (column : Int) : Id :=
  (type[column.toNat]?).getD default

/-- ecs_rule_var_kind_t.  Table must be smallest (used for sorting). -/
inductive VarKind where
  | table
  | entity
  | unknown
deriving DecidableEq, Repr

/-- Numeric value of the C enum (EcsRuleVarKindTable = 0, ...). -/
def VarKind.val : VarKind → Nat
  | .table => 0
  | .entity => 1
  | .unknown => 2

/-- ecs_rule_var_t. -/
structure RuleVar where
  kind : VarKind
  name : String
  id : Nat
  occurs : Nat
  depth : Nat
  marked : Bool
deriving DecidableEq, Repr

instance : Inhabited RuleVar :=
  ⟨⟨.unknown, "", 0, 0, 0, false⟩⟩

/-- The var field of an ecs_term_id_t (EcsVarDefault / EcsVarIsEntity /
EcsVarIsVariable). -/
inductive VarSpec where
  | default
  | isEntity
  | isVariable
deriving DecidableEq, Repr

/-- ecs_term_id_t, reduced to the fields rules.c reads. -/
structure TermId where
  entity : Entity
  name : Option String
  varSpec : VarSpec
deriving DecidableEq, Repr

/-- ecs_oper_kind_t, reduced to the operators that rules.c distinguishes. -/
inductive TermOper where
  | and
  | not
  | optional
deriving DecidableEq, Repr

/-- ecs_term_t, reduced to the fields rules.c reads.  objSet and subjSet
record ecs_term_id_is_set of the object/subject (the term parser, which is
out of scope, guarantees them); subjNothing records
term->subj.set.mask & EcsNothing. -/
structure Term where
  pred : TermId
  subj : TermId
  obj : TermId
  oper : TermOper
  objSet : Bool
  subjSet : Bool
  subjNothing : Bool
  id : Id
deriving DecidableEq, Repr

instance : Inhabited Term :=
  ⟨⟨⟨0, none, .default⟩, ⟨0, none, .default⟩, ⟨0, none, .default⟩,
    .and, false, false, false, default⟩⟩

/-- obj_is_set (rules.c line 376): set-ness of the object as provided by the
parsed term (ecs_term_id_is_set(obj) or role == ECS_PAIR). -/
def obj_is_set (t : Term) : Bool := t.objSet

/-- subj_is_set (rules.c line 369). -/
def subj_is_set (t : Term) : Bool := t.subjSet

/-- skip_term (rules.c line 1042). -/
def skip_term (t : Term) : Bool :=
  t.subjNothing || t.oper == TermOper.not

/-- get_var_name (rules.c line 397): This and . resolve to the same name. -/
def get_var_name (name : String) : String :=
  if name == "This" then "." else name

/-- term_id_is_variable (rules.c line 507). -/
def term_id_is_variable (tid : TermId) : Bool :=
  tid.varSpec == VarSpec.isVariable

/-- term_id_var_name (rules.c line 514). -/
def term_id_var_name (tid : TermId) : Option String :=
  if tid.varSpec == VarSpec.isVariable then
    if tid.entity == EcsThis then some "." else tid.name
  else
    none

/-- find_variable (rules.c line 458) over a variable array: the first
variable with the given (normalized) name whose kind matches, where Unknown
matches any kind. -/
def find_variable (vars : List RuleVar) (kind : VarKind) (name : String) :
    Option RuleVar :=
  let nm := get_var_name name
  vars.find? (fun v =>
    v.name == nm && (kind == VarKind.unknown || kind == v.kind))

/-- RULE_PAIR_PREDICATE / RULE_PAIR_OBJECT reg_mask bits. -/
def RULE_PAIR_PREDICATE : Nat := 1

def RULE_PAIR_OBJECT : Nat := 2

/-- ecs_rule_pair_t.  The C pred/obj fields are unions of a register index
and an entity id; the model stores the raw number and reg_mask says how to
read it, exactly as the C code does. -/
structure RulePair where
  pred : Nat
  obj : Nat
  reg_mask : Nat
  transitive : Bool
  final : Bool
  inclusive : Bool
  obj_0 : Bool
deriving DecidableEq, Repr

instance : Inhabited RulePair := ⟨⟨0, 0, 0, false, false, false, false⟩⟩

/-- ecs_rule_op_kind_t. -/
inductive OpKind where
  | input
  | select
  | withOp
  | subset
  | superset
  | store
  | each
  | setjmp
  | jump
  | notOp
  | yield
deriving DecidableEq, Repr

/-- ecs_rule_op_t.  create_operation zeroes the struct, so the default value
has kind Input (enum value 0), labels 0 and term 0. -/
structure RuleOp where
  kind : OpKind
  filter : RulePair
  subject : Entity
  on_pass : Int
  on_fail : Int
  frame : Nat
  term : Int
  r_in : Nat
  r_out : Nat
  has_in : Bool
  has_out : Bool
deriving DecidableEq, Repr

instance : Inhabited RuleOp :=
  ⟨⟨.input, default, 0, 0, 0, 0, 0, 0, 0, false, false⟩⟩

/-- The fields of ecs_rule_t that rule construction fills in.  vars models
the rule->variables array (the name 'variables' is reserved in Lean). -/
structure RuleBuild where
  vars : List RuleVar
  subject_variable_count : Nat
  operations : List RuleOp
  frame_count : Nat
  terms : List Term
deriving DecidableEq, Repr

/-- variable_count (tracked separately in C; here the array length). -/
def RuleBuild.variable_count (st : RuleBuild) : Nat := st.vars.length

/-- Fetch a variable by id.  Variable ids always equal positions in the
variables array (create_variable assigns them and scan_variables restores
them after sorting). -/
def RuleBuild.getVar (st : RuleBuild) (i : Nat) : RuleVar :=
  (st.vars[i]?).getD default

/-- Update a variable in place by id. -/
def RuleBuild.setVar (st : RuleBuild) (i : Nat) (v : RuleVar) : RuleBuild :=
  { st with vars := st.vars.set i v }

def RuleBuild.setDepth (st : RuleBuild) (i : Nat) (d : Nat) : RuleBuild :=
  st.setVar i { st.getVar i with depth := d }

def RuleBuild.setMarked (st : RuleBuild) (i : Nat) (m : Bool) : RuleBuild :=
  st.setVar i { st.getVar i with marked := m }

/-- create_variable (rules.c line 407).  Returns the new state and the new
variable's id.  Anonymous variables (name = none) get the synthetic name
prefixed with an underscore. -/
def create_variable (st : RuleBuild) (kind : VarKind)
    (name : Option String) : RuleBuild × Nat :=
  let cur := st.vars.length + 1
  let nm :=
    match name with
    | some n => get_var_name n
    | none => "_" ++ toString (cur - 1)
  let v : RuleVar :=
    { kind := kind, name := nm, id := cur - 1, occurs := 0,
      depth := UINT8_MAX, marked := false }
  ({ st with vars := st.vars ++ [v] }, cur - 1)

/-- create_anonymous_variable (rules.c line 444). -/
def create_anonymous_variable (st : RuleBuild) (kind : VarKind) :
    RuleBuild × Nat :=
  create_variable st kind none

/-- ensure_variable (rules.c line 489): find or create; an existing variable
of Unknown kind is promoted to the requested kind. -/
def ensure_variable (st : RuleBuild) (kind : VarKind) (name : String) :
    RuleBuild × Nat :=
  match find_variable st.vars kind name with
  | none => create_variable st kind (some name)
  | some v =>
      if v.kind == VarKind.unknown then
        (st.setVar v.id { v with kind := kind }, v.id)
      else
        (st, v.id)

/-- term_id_to_var (rules.c line 532). -/
def term_id_to_var (st : RuleBuild) (tid : TermId) : Option RuleVar :=
  if tid.varSpec == VarSpec.isVariable then
    match term_id_var_name tid with
    | some n => find_variable st.vars VarKind.unknown n
    | none => none
  else
    none

/-- term_pred (rules.c line 544). -/
def term_pred (st : RuleBuild) (t : Term) : Option RuleVar :=
  term_id_to_var st t.pred

/-- term_subj (rules.c line 553). -/
def term_subj (st : RuleBuild) (t : Term) : Option RuleVar :=
  term_id_to_var st t.subj

/-- term_obj (rules.c line 562). -/
def term_obj (st : RuleBuild) (t : Term) : Option RuleVar :=
  if obj_is_set t then term_id_to_var st t.obj else none

/-- is_subject (rules.c line 1024): subject variables are the first
subject_variable_count entries of the variable array. -/
def is_subject (st : RuleBuild) (v : Option RuleVar) : Bool :=
  match v with
  | none => false
  | some v => v.id < st.subject_variable_count

/-- Variable identity for the pointer comparisons in the C code: two
variable pointers into rule->variables are equal iff the ids are. -/
def varEq (a b : Option RuleVar) : Bool :=
  match a, b with
  | none, none => true
  | some a, some b => a.id == b.id
  | _, _ => false

/-- The call shapes of the mutually recursive depth computation
(crawl_variable, get_depth_from_var, get_depth_from_term,
get_variable_depth and their term loops).  A single structurally recursive
dispatcher keeps the definitions kernel-reducible. -/
inductive DepthCall where
  | crawl (varId rootId : Nat)
  | crawlLoop (varId rootId : Nat) (terms : List Term)
  | fromVar (varId rootId : Nat)
  | fromTerm (curId : Nat) (predId objId : Option Nat) (rootId : Nat)
  | depth (varId rootId : Nat)
  | loop1 (varId rootId result : Nat) (terms : List Term)
  | loop2 (varId rootId : Nat) (terms : List Term)
deriving Repr

/-- The depth computation of scan_variables (rules.c lines 1054-1262).
The C recursion terminates through the marked flags; the embedding carries
explicit fuel, decremented on every call, which every concrete evaluation
in this file receives in abundance.  Calls that the C code makes for their
side effects only (crawl_variable and the second term loop) return their
state paired with an unused UINT8_MAX. -/
def depth_step (st : RuleBuild) : Nat → DepthCall → Nat × RuleBuild
  | 0, _ => (UINT8_MAX, st)
  | fuel + 1, call =>
    match call with
    | .crawl varId rootId =>
        -- crawl_variable (rules.c line 1061)
        depth_step st fuel (.crawlLoop varId rootId st.terms)
    | .crawlLoop _ _ [] => (UINT8_MAX, st)
    | .crawlLoop varId rootId (term :: rest) =>
        if skip_term term then
          depth_step st fuel (.crawlLoop varId rootId rest)
        else
          let pred := term_pred st term
          let subj := term_subj st term
          let obj := term_obj st term
          let var := some (st.getVar varId)
          if ¬(varEq var pred ∨ varEq var subj ∨ varEq var obj) then
            depth_step st fuel (.crawlLoop varId rootId rest)
          else
            let st :=
              match pred with
              | some p =>
                  if p.id ≠ varId ∧ ¬p.marked then
                    (depth_step st fuel (.depth p.id rootId)).2
                  else st
              | none => st
            let st :=
              match term_subj st term with
              | some sv =>
                  if sv.id ≠ varId ∧ ¬sv.marked then
                    (depth_step st fuel (.depth sv.id rootId)).2
                  else st
              | none => st
            let st :=
              match term_obj st term with
              | some o =>
                  if o.id ≠ varId ∧ ¬o.marked then
                    (depth_step st fuel (.depth o.id rootId)).2
                  else st
              | none => st
            depth_step st fuel (.crawlLoop varId rootId rest)
    | .fromVar varId rootId =>
        -- get_depth_from_var (rules.c line 1103)
        let v := st.getVar varId
        if varId = rootId ∨ v.depth ≠ UINT8_MAX then
          (v.depth + 1, st)
        else if v.marked then
          (0, st)
        else
          let (depth, st) := depth_step st fuel (.depth varId rootId)
          if depth = UINT8_MAX then (depth, st) else (depth + 1, st)
    | .fromTerm curId predId objId rootId =>
        -- get_depth_from_term (rules.c line 1130)
        match predId, objId with
        | none, none => (0, st)
        | _, _ =>
            let afterPred : Option (Nat × RuleBuild) :=
              match predId with
              | some p =>
                  if p ≠ curId then
                    let (depth, st) := depth_step st fuel (.fromVar p rootId)
                    if depth = UINT8_MAX then none
                    else some (depth, st)
                  else some (UINT8_MAX, st)
              | none => some (UINT8_MAX, st)
            match afterPred with
            | none => (UINT8_MAX, st)
            | some (result, st) =>
                match objId with
                | some o =>
                    if o ≠ curId then
                      let (depth, st) :=
                        depth_step st fuel (.fromVar o rootId)
                      if depth = UINT8_MAX then (UINT8_MAX, st)
                      else if depth < result then (depth, st)
                      else (result, st)
                    else (result, st)
                | none => (result, st)
    | .depth varId rootId =>
        -- get_variable_depth (rules.c line 1177)
        let st := st.setMarked varId true
        let (result, st) :=
          depth_step st fuel (.loop1 varId rootId UINT8_MAX st.terms)
        let result := if result = UINT8_MAX then 0 else result
        let st := st.setDepth varId result
        let st := (depth_step st fuel (.loop2 varId rootId st.terms)).2
        ((st.getVar varId).depth, st)
    | .loop1 _ _ result [] => (result, st)
    | .loop1 varId rootId result (term :: rest) =>
        if skip_term term then
          depth_step st fuel (.loop1 varId rootId result rest)
        else
          let pred := term_pred st term
          let subj := term_subj st term
          let obj := term_obj st term
          if ¬varEq subj (some (st.getVar varId)) then
            depth_step st fuel (.loop1 varId rootId result rest)
          else
            let pred := if is_subject st pred then pred else none
            let obj := if is_subject st obj then obj else none
            let (depth, st) := depth_step st fuel
              (.fromTerm varId (pred.map (fun v => v.id))
                (obj.map (fun v => v.id)) rootId)
            let result := if depth < result then depth else result
            depth_step st fuel (.loop1 varId rootId result rest)
    | .loop2 _ _ [] => (UINT8_MAX, st)
    | .loop2 varId rootId (term :: rest) =>
        if skip_term term then
          depth_step st fuel (.loop2 varId rootId rest)
        else
          let subj := term_subj st term
          let pred := term_pred st term
          let obj := term_obj st term
          if ¬varEq subj (some (st.getVar varId)) then
            depth_step st fuel (.loop2 varId rootId rest)
          else
            let st := (depth_step st fuel (.crawl varId rootId)).2
            let st :=
              match pred with
              | some p =>
                  if p.id ≠ varId then
                    (depth_step st fuel (.crawl p.id rootId)).2
                  else st
              | none => st
            let st :=
              match obj with
              | some o =>
                  if o.id ≠ varId then
                    (depth_step st fuel (.crawl o.id rootId)).2
                  else st
              | none => st
            depth_step st fuel (.loop2 varId rootId rest)

/-- get_variable_depth (rules.c line 1177), entry point. -/
def get_variable_depth (fuel : Nat) (st : RuleBuild) (varId rootId : Nat) :
    Nat × RuleBuild :=
  depth_step st fuel (.depth varId rootId)

/-- compare_variable (rules.c line 1267).  Kind ascending, then depth
ascending, then occurrence: the C code returns 1 when v1 occurs less than
v2 and -1 otherwise, so equal occurrence counts also yield -1 and the final
id comparison in the source is unreachable (both branches of the preceding
if/else return). -/
def compare_variable (v1 v2 : RuleVar) : Int :=
  if v1.kind.val < v2.kind.val then -1
  else if v1.kind.val > v2.kind.val then 1
  else if v1.depth < v2.depth then -1
  else if v1.depth > v2.depth then 1
  else if v1.occurs < v2.occurs then 1
  else -1

/-- The variable sort of scan_variables (ecs_qsort_t with compare_variable,
rules.c line 1458), realized as an insertion sort with the same comparator.
qsort's output order is implementation defined for comparators that are not
antisymmetric (compare_variable maps ties to -1 in both directions); no
theorem in this file depends on the relative order of tied variables. -/
def sort_variables (l : List RuleVar) : List RuleVar :=
  let rec insert (v : RuleVar) : List RuleVar → List RuleVar
    | [] => [v]
    | w :: rest =>
        if compare_variable v w ≤ 0 then v :: w :: rest
        else w :: insert v rest
  let rec go : List RuleVar → List RuleVar
    | [] => []
    | v :: rest => insert v (go rest)
  go l

/-- The id reassignment after the sort (rules.c lines 1461-1463): variable
ids are restored to positions in the array. -/
def renumber_vars (i : Nat) : List RuleVar → List RuleVar
  | [] => []
  | v :: rest => { v with id := i } :: renumber_vars (i + 1) rest

/-- ensure_all_variables (rules.c line 1305): register entity-kind versions
of all predicate, non-This subject, and object variables of non-skipped
terms. -/
def ensure_all_variables (st : RuleBuild) : RuleBuild :=
  let rec go (st : RuleBuild) : List Term → RuleBuild
    | [] => st
    | term :: rest =>
        if skip_term term then go st rest
        else
          let st :=
            if term_id_is_variable term.pred then
              match term_id_var_name term.pred with
              | some n => (ensure_variable st VarKind.entity n).1
              | none => st
            else st
          let st :=
            if term.subj.varSpec == VarSpec.isVariable &&
                term.subj.entity != EcsThis then
              match term_id_var_name term.subj with
              | some n => (ensure_variable st VarKind.entity n).1
              | none => st
            else st
          let st :=
            if obj_is_set term && term_id_is_variable term.obj then
              match term_id_var_name term.obj with
              | some n => (ensure_variable st VarKind.entity n).1
              | none => st
            else st
          go st rest
  go st st.terms

/-- ECS_RULE_MAX_VARIABLE_COUNT (rules.c line 173). -/
def ECS_RULE_MAX_VARIABLE_COUNT : Nat := 256

/-- The compile-time errors that scan_variables reports through rule_error
(the strings of the C calls become constructors). -/
inductive ScanError where
  | tooManyVariables
  | unconstrainedVariable (name : String)
  | missingPredicateVariable (name : String)
  | missingObjectVariable (name : String)
deriving DecidableEq, Repr

/-- The root-election bookkeeping of scan_variables step 1 (rules.c lines
1344-1383): subject_count (declared, never incremented), this_var (declared
with sentinel UINT8_MAX, never assigned), max_occur and max_occur_var. -/
structure RootScan where
  st : RuleBuild
  subject_count : Nat
  this_var : Nat
  max_occur : Nat
  max_occur_var : Nat
deriving Repr

/-- The occurrence bump and max tracking of scan_variables step 1 (rules.c
lines 1376-1379). -/
def scan_roots_bump (acc : RootScan) (subjId : Nat) : RootScan :=
  let st := acc.st.setVar subjId
    { acc.st.getVar subjId with occurs := (acc.st.getVar subjId).occurs + 1 }
  let occ := (st.getVar subjId).occurs
  if occ > acc.max_occur then
    { acc with st := st, max_occur := occ, max_occur_var := subjId }
  else
    { acc with st := st }

/-- The term loop of scan_variables step 1 (rules.c lines 1358-1381). -/
def scan_roots_go (acc : RootScan) : List Term → Except ScanError RootScan
  | [] => Except.ok acc
  | term :: rest =>
      if term_id_is_variable term.subj then
        match term_id_var_name term.subj with
        | none => scan_roots_go acc rest
        | some subj_name =>
            match find_variable acc.st.vars VarKind.table subj_name with
            | none =>
                let (st, subjId) :=
                  create_variable acc.st VarKind.table (some subj_name)
                if acc.subject_count ≥ ECS_RULE_MAX_VARIABLE_COUNT then
                  Except.error ScanError.tooManyVariables
                else
                  scan_roots_go (scan_roots_bump { acc with st := st } subjId)
                    rest
            | some v => scan_roots_go (scan_roots_bump acc v.id) rest
      else
        scan_roots_go acc rest

/-- Step 1 of scan_variables (rules.c lines 1354-1381): find all possible
roots.  Every variable subject is created as a Table-kind variable and its
occurrence count incremented; the cap check compares subject_count (which
is never incremented anywhere in the source) against the maximum. -/
def scan_variables_find_roots (terms : List Term) :
    Except ScanError RootScan :=
  scan_roots_go
    { st := { vars := [], subject_variable_count := 0, operations := [],
              frame_count := 0, terms := terms },
      subject_count := 0, this_var := UINT8_MAX, max_occur := 0,
      max_occur_var := UINT8_MAX } terms

/-- Depth-0 seeding of scan_variables (rules.c lines 1388-1403): variables
in a term with a literal (entity) subject get depth 0. -/
def scan_variables_seed_literal_subjects (st : RuleBuild) : RuleBuild :=
  let rec go (st : RuleBuild) : List Term → RuleBuild
    | [] => st
    | term :: rest =>
        if term.subj.varSpec == VarSpec.isEntity then
          let st :=
            match term_pred st term with
            | some p => st.setDepth p.id 0
            | none => st
          let st :=
            match term_obj st term with
            | some o => st.setDepth o.id 0
            | none => st
          go st rest
        else
          go st rest
  go st st.terms

/-- Root election of scan_variables (rules.c lines 1405-1416): the root is
this_var when set, otherwise the most occurring subject variable; none when
no subject variable exists at all (the rule operates on a fixed set of
entities and scan_variables jumps to done).  Because this_var is never
assigned in the source, the first branch never fires. -/
def elect_root (acc : RootScan) : Option Nat :=
  let root_var := if acc.this_var ≠ UINT8_MAX then acc.this_var
                  else acc.max_occur_var
  if root_var = UINT8_MAX then none else some root_var

/-- The elected root for a term list (step 1 followed by the election). -/
def elected_root (terms : List Term) : Option Nat :=
  match scan_variables_find_roots terms with
  | Except.error _ => none
  | Except.ok acc => elect_root acc

/-- The variable loop of the unconstrained check (rules.c lines
1423-1429). -/
def unconstrained_check_go (svc : Nat) : List RuleVar →
    Except ScanError Unit
  | [] => Except.ok ()
  | v :: rest =>
      if v.id < svc ∧ v.depth = UINT8_MAX then
        Except.error (ScanError.unconstrainedVariable v.name)
      else unconstrained_check_go svc rest

/-- The unconstrained-variable check of scan_variables (rules.c lines
1421-1429): every subject variable must have been assigned a finite depth. -/
def scan_variables_unconstrained_check (st : RuleBuild) :
    Except ScanError Unit :=
  unconstrained_check_go st.subject_variable_count st.vars

/-- The term loop of the Not-term check (rules.c lines 1432-1452). -/
def not_check_go (st : RuleBuild) : List Term → Except ScanError Unit
  | [] => Except.ok ()
  | term :: rest =>
      if term.oper ≠ TermOper.not then not_check_go st rest
      else
        let pred := term_pred st term
        let obj := term_obj st term
        if pred = none ∧ term_id_is_variable term.pred then
          Except.error (ScanError.missingPredicateVariable
            ((term_id_var_name term.pred).getD ""))
        else if obj = none ∧ term_id_is_variable term.obj then
          Except.error (ScanError.missingObjectVariable
            ((term_id_var_name term.obj).getD ""))
        else not_check_go st rest

/-- The Not-term check of scan_variables (rules.c lines 1431-1452): for each
Not term, a predicate or object position that is a variable must resolve in
the variable table. -/
def scan_variables_not_check (st : RuleBuild) : Except ScanError Unit :=
  not_check_go st st.terms

/-- Fuel handed to the depth recursion.  The C recursion is bounded by the
marked flags; any fuel at least 4 * (#vars + 1) * (#terms + 1) ^ 2 strictly
exceeds the number of calls the marked flags allow. -/
def depth_fuel (st : RuleBuild) : Nat :=
  4 * (st.vars.length + 1) * (st.terms.length + 1) *
    (st.terms.length + 1) * (st.vars.length + 1)

/-- scan_variables (rules.c line 1340): find all variables and put them in
dependency order.  Returns the updated rule state or the first reported
error. -/
def scan_variables (terms : List Term) : Except ScanError RuleBuild := do
  let acc ← scan_variables_find_roots terms
  let st := acc.st
  let st := { st with subject_variable_count := st.vars.length }
  let st := ensure_all_variables st
  let st := scan_variables_seed_literal_subjects st
  match elect_root acc with
  | none =>
      -- goto done: no root election required
      Except.ok st
  | some root_var =>
      let (rootDepth, st) :=
        get_variable_depth (depth_fuel st) st root_var root_var
      let st := st.setDepth root_var rootDepth
      scan_variables_unconstrained_check st |>.bind fun _ =>
      -- The Not check iterates rule->filter.terms, which no compiler step
      -- mutates; the embedding passes the original term list directly.
      not_check_go st terms |>.bind fun _ =>
        let sorted := sort_variables st.vars
        Except.ok { st with vars := renumber_vars 0 sorted }

/-- The id of a variable lookup that the source asserts to succeed
(ecs_assert(var != NULL)); the 0 default is unreachable for rules that
passed scan_variables. -/
def optVarId (v : Option RuleVar) : Nat :=
  match v with
  | some v => v.id
  | none => 0

/-- term_to_pair (rules.c line 837): encode a term into a rule pair,
replacing variables by register ids and reading the transitive / final /
inclusive traits of a literal predicate from the storage. -/
def term_to_pair (w : World) (st : RuleBuild) (term : Term) : RulePair :=
  let result : RulePair := default
  let result :=
    if term.pred.varSpec == VarSpec.isVariable then
      let var := find_variable st.vars VarKind.entity
        ((term_id_var_name term.pred).getD "")
      { result with pred := optVarId var,
                    reg_mask := result.reg_mask ||| RULE_PAIR_PREDICATE,
                    final := true }
    else
      let pred_id := term.pred.entity
      let result := { result with pred := pred_id }
      let result :=
        if ecs_has_id w pred_id EcsTransitive && obj_is_set term then
          { result with transitive := true }
        else result
      let result :=
        if ecs_has_id w pred_id EcsFinal then { result with final := true }
        else result
      if ecs_has_id w pred_id EcsTransitiveSelf then
        { result with inclusive := true }
      else result
  if ¬obj_is_set term then result
  else if term.obj.varSpec == VarSpec.isVariable then
    let var := find_variable st.vars VarKind.entity
      ((term_id_var_name term.obj).getD "")
    { result with obj := optVarId var,
                  reg_mask := result.reg_mask ||| RULE_PAIR_OBJECT }
  else
    let objEnt := term.obj.entity
    if objEnt = 0 then { result with obj := objEnt, obj_0 := true }
    else { result with obj := objEnt }

/-- pair_pred (rules.c line 575): the predicate register of a pair, if the
predicate is a variable. -/
def pair_pred (pair : RulePair) : Option Nat :=
  if pair.reg_mask &&& RULE_PAIR_PREDICATE ≠ 0 then some pair.pred else none

/-- pair_obj (rules.c line 588). -/
def pair_obj (pair : RulePair) : Option Nat :=
  if pair.reg_mask &&& RULE_PAIR_OBJECT ≠ 0 then some pair.obj else none

/-- The state threaded through program emission: the rule under
construction plus the written flag array (compile_program's
bool written[ECS_RULE_MAX_VARIABLE_COUNT]). -/
structure EmitState where
  rule : RuleBuild
  written : List Bool
deriving Repr

def writtenGet (ws : List Bool) (i : Nat) : Bool := (ws[i]?).getD false

def EmitState.isWritten (es : EmitState) (i : Nat) : Bool :=
  writtenGet es.written i

def EmitState.setWritten (es : EmitState) (i : Nat) : EmitState :=
  { es with written := es.written.set i true }

/-- create_operation (rules.c line 383): append a zeroed operation; returns
the new operation's index. -/
def create_operation (st : RuleBuild) : RuleBuild × Nat :=
  ({ st with operations := st.operations ++ [default] },
   st.operations.length)

/-- Update an operation in place. -/
def EmitState.modifyOp (es : EmitState) (i : Nat) (f : RuleOp → RuleOp) :
    EmitState :=
  { es with rule := { es.rule with
      operations := es.rule.operations.set i
        (f ((es.rule.operations[i]?).getD default)) } }

def EmitState.getOp (es : EmitState) (i : Nat) : RuleOp :=
  (es.rule.operations[i]?).getD default

def EmitState.opCount (es : EmitState) : Nat := es.rule.operations.length

/-- push_frame (rules.c line 605): returns the old frame count. -/
def push_frame (st : RuleBuild) : RuleBuild × Nat :=
  ({ st with frame_count := st.frame_count + 1 }, st.frame_count)

def EmitState.pushFrame (es : EmitState) : EmitState :=
  { es with rule := (push_frame es.rule).1 }

/-- to_entity (rules.c line 1473): the entity-kind variable for a variable
(itself when it already is entity kind). -/
def to_entity (st : RuleBuild) (varId : Option Nat) : Option Nat :=
  match varId with
  | none => none
  | some vid =>
      let v := st.getVar vid
      if v.kind == VarKind.table then
        (find_variable st.vars VarKind.entity v.name).map (·.id)
      else
        some vid

/-- most_specific_var (rules.c line 1495): prefer the written entity-kind
version of a variable; with create, bridge a written table variable to its
unwritten entity variable by inserting an Each operation. -/
def most_specific_var (es : EmitState) (varId : Option Nat)
    (create : Bool) : EmitState × Option Nat :=
  match varId with
  | none => (es, none)
  | some vid =>
      let var := es.rule.getVar vid
      match to_entity es.rule (some vid) with
      | none => (es, some vid)
      | some evid =>
          let tvar : Option Nat :=
            if var.kind == VarKind.table then some vid
            else (find_variable es.rule.vars VarKind.table var.name).map (·.id)
          match tvar with
          | some tvid =>
              if es.isWritten tvid then
                if es.isWritten evid then (es, some evid)
                else if create then
                  let (rule, opIdx) := create_operation es.rule
                  let es := { es with rule := rule }
                  let es := es.modifyOp opIdx (fun op =>
                    { op with kind := .each,
                              on_pass := (es.opCount : Int),
                              on_fail := (es.opCount : Int) - 2,
                              frame := es.rule.frame_count,
                              has_in := true, has_out := true,
                              r_in := tvid, r_out := evid })
                  let es := es.setWritten evid
                  let es := es.pushFrame
                  (es, some evid)
                else (es, some tvid)
              else if es.isWritten evid then (es, some evid)
              else (es, some vid)
          | none =>
              if es.isWritten evid then (es, some evid)
              else (es, some vid)

/-- get_most_specific_var (rules.c line 1560). -/
def get_most_specific_var (es : EmitState) (varId : Option Nat) :
    EmitState × Option Nat :=
  most_specific_var es varId false

/-- ensure_most_specific_var (rules.c line 1571). -/
def ensure_most_specific_var (es : EmitState) (varId : Option Nat) :
    EmitState × Option Nat :=
  most_specific_var es varId true

/-- ensure_entity_written (rules.c line 1582). -/
def ensure_entity_written (es : EmitState) (varId : Option Nat) :
    EmitState × Option Nat :=
  match varId with
  | none => (es, none)
  | some vid => ensure_most_specific_var es (some vid)

/-- insert_operation (rules.c line 1606): append an operation whose filter
is the term's pair (with predicate/object registers replaced by their most
specific versions), or the zero pair for term_index -1. -/
def insert_operation (w : World) (es : EmitState) (term_index : Int) :
    EmitState × Nat :=
  let pair :=
    if term_index ≠ -1 then
      match es.rule.terms[term_index.toNat]? with
      | some term =>
          let pair := term_to_pair w es.rule term
          let pair :=
            if pair.reg_mask &&& RULE_PAIR_PREDICATE ≠ 0 then
              let (_, pv) := get_most_specific_var es (some pair.pred)
              { pair with pred := pv.getD pair.pred }
            else pair
          if pair.reg_mask &&& RULE_PAIR_OBJECT ≠ 0 then
            let (_, ov) := get_most_specific_var es (some pair.obj)
            { pair with obj := ov.getD pair.obj }
          else pair
      | none => default
    else default
  let (rule, opIdx) := create_operation es.rule
  let es := { es with rule := rule }
  let es := es.modifyOp opIdx (fun op =>
    { op with on_pass := (es.opCount : Int),
              on_fail := (es.opCount : Int) - 2,
              frame := es.rule.frame_count,
              filter := pair,
              term := term_index })
  (es, opIdx)

/-- insert_input (rules.c line 1659). -/
def insert_input (es : EmitState) : EmitState :=
  let (rule, opIdx) := create_operation es.rule
  let es := { es with rule := rule }
  let es := es.modifyOp opIdx (fun op =>
    { op with kind := .input, on_pass := 1, on_fail := -1 })
  es.pushFrame

/-- insert_yield (rules.c line 1678).  The yield reads the entity-kind this
variable when it exists, else the table-kind one, else the UINT8_MAX
sentinel (boolean rule). -/
def insert_yield (es : EmitState) : EmitState :=
  let (rule, opIdx) := create_operation es.rule
  let es := { es with rule := rule }
  let rin :=
    match find_variable es.rule.vars VarKind.entity "." with
    | some v => v.id
    | none =>
        match find_variable es.rule.vars VarKind.table "." with
        | some v => v.id
        | none => UINT8_MAX
  let (rule, frame) := push_frame es.rule
  let es := { es with rule := rule }
  es.modifyOp opIdx (fun op =>
    { op with kind := .yield, has_in := true,
              on_fail := (es.opCount : Int) - 2,
              r_in := rin, frame := frame })

/-- insert_inclusive_set (rules.c line 1710): emit the SetJmp / Store /
SubSet-or-SuperSet / Jump block (just the set operation when not
inclusive). -/
def insert_inclusive_set (w : World) (es : EmitState)
    (op_kind : OpKind) (outId : Nat) (pair : RulePair) (c : Int)
    (inclusive : Bool) : EmitState :=
  let setjmp_lbl := es.opCount
  let store_lbl := setjmp_lbl + 1
  let es :=
    if inclusive then
      let (es, _) := insert_operation w es (-1)
      let (es, _) := insert_operation w es (-1)
      let (es, _) := insert_operation w es (-1)
      es
    else es
  let (es, lastIdx) := insert_operation w es (-1)
  let set_lbl := if inclusive then setjmp_lbl + 2 else setjmp_lbl
  let next_op : Int := if inclusive then (setjmp_lbl : Int) + 4
                       else (set_lbl : Int) + 1
  let prev_op : Int := if inclusive then (setjmp_lbl : Int) - 1
                       else (set_lbl : Int) - 1
  let pred := pair_pred pair
  let obj := pair_obj pair
  let setFilterPred (f : RulePair) : RulePair :=
    match pred with
    | none => { f with pred := pair.pred }
    | some p => { f with pred := p,
                         reg_mask := f.reg_mask ||| RULE_PAIR_PREDICATE }
  let setFilterObj (f : RulePair) : RulePair :=
    match obj with
    | none => { f with obj := pair.obj }
    | some o => { f with obj := o,
                         reg_mask := f.reg_mask ||| RULE_PAIR_OBJECT }
  let es :=
    if inclusive then
      let es := es.modifyOp setjmp_lbl (fun op =>
        { op with kind := .setjmp, on_pass := (store_lbl : Int),
                  on_fail := (set_lbl : Int) })
      let es := es.modifyOp store_lbl (fun op =>
        let op := { op with kind := .store, on_pass := next_op,
                            on_fail := (setjmp_lbl : Int),
                            has_in := true, has_out := true,
                            r_out := outId, term := c }
        let op := { op with filter := setFilterPred op.filter }
        let op := { op with filter := setFilterObj op.filter }
        match obj with
        | none =>
            { op with r_in := UINT8_MAX,
                      subject := ecs_get_alive w pair.obj }
        | some o => { op with r_in := o })
      es
    else es
  let es := es.modifyOp set_lbl (fun op =>
    let op := { op with kind := op_kind, on_pass := next_op,
                        on_fail := prev_op, has_out := true,
                        r_out := outId, term := c }
    let op := { op with filter := setFilterPred op.filter }
    { op with filter := setFilterObj op.filter })
  let es :=
    if inclusive then
      es.modifyOp lastIdx (fun op =>
        { op with kind := .jump, on_pass := (setjmp_lbl : Int),
                  on_fail := -1 })
    else es
  es.setWritten outId

/-- store_inclusive_set (rules.c line 1841): create the anonymous output
variable(s) for an inclusive set and emit the block; returns the (written)
entity-kind variable. -/
def store_inclusive_set (w : World) (es : EmitState) (op_kind : OpKind)
    (pair : RulePair) (inclusive : Bool) : EmitState × Option Nat :=
  let var_kind :=
    if op_kind == OpKind.superset then VarKind.entity else VarKind.table
  let (rule, avId) := create_anonymous_variable es.rule var_kind
  let es := { es with rule := rule }
  let (es, avId) :=
    if var_kind == VarKind.table then
      let avName := (es.rule.getVar avId).name
      let (rule, aveId) := create_variable es.rule VarKind.entity
        (some avName)
      ({ es with rule := rule }, aveId - 1)
    else (es, avId)
  -- pair->obj.reg = obj->id (rules.c line 1868) re-stores the object's own
  -- register id and does not change the pair.
  let es := insert_inclusive_set w es op_kind avId pair (-1) inclusive
  ensure_entity_written es (some avId)

/-- is_known (rules.c line 1881). -/
def is_known (es : EmitState) (varId : Option Nat) : Bool :=
  match varId with
  | none => true
  | some vid => es.isWritten vid

/-- is_pair_known (rules.c line 1893). -/
def is_pair_known (es : EmitState) (pair : RulePair) : Bool :=
  is_known es (pair_pred pair) && is_known es (pair_obj pair)

/-- set_input_to_subj (rules.c line 1912). -/
def EmitState.setInputToSubj (es : EmitState) (opIdx : Nat) (term : Term)
    (varId : Option Nat) : EmitState :=
  es.modifyOp opIdx (fun op =>
    let op := { op with has_in := true }
    match varId with
    | none => { op with r_in := UINT8_MAX, subject := term.subj.entity }
    | some v => { op with r_in := v })

/-- set_output_to_subj (rules.c line 1934). -/
def EmitState.setOutputToSubj (es : EmitState) (opIdx : Nat) (term : Term)
    (varId : Option Nat) : EmitState :=
  es.modifyOp opIdx (fun op =>
    let op := { op with has_out := true }
    match varId with
    | none => { op with r_out := UINT8_MAX, subject := term.subj.entity }
    | some v => { op with r_out := v })

/-- insert_select_or_with (rules.c line 1956). -/
def insert_select_or_with (w : World) (es : EmitState) (c : Int)
    (term : Term) (subjIn : Option Nat) (pairIn : Option RulePair) :
    EmitState :=
  let wildcard_subj := term.subj.entity == EcsWildcard
  let subj := subjIn
  let evar := to_entity es.rule subj
  let tvar : Option Nat :=
    match subj with
    | some s =>
        if (es.rule.getVar s).kind == VarKind.table then some s else none
    | none => none
  let var : Option Nat := if evar.isSome then evar else tvar
  let lbl_start := es.opCount
  let filter :=
    match pairIn with
    | some p => p
    | none => term_to_pair w es.rule term
  let (es, subj, evar, tvar, eval_subject_supersets) :=
    if var.isNone && !wildcard_subj then
      if ¬filter.transitive ∨ filter.pred ≠ EcsIsA then
        let isa_pair : RulePair :=
          { (default : RulePair) with pred := EcsIsA, obj := term.subj.entity }
        let (es, av) := store_inclusive_set w es .superset isa_pair true
        (es, av, av, none, true)
      else (es, subj, evar, tvar, false)
    else (es, subj, evar, tvar, false)
  let (es, opIdx) :=
    match pairIn with
    | none => insert_operation w es c
    | some p =>
        let (es, opIdx) := insert_operation w es (-1)
        (es.modifyOp opIdx (fun op => { op with filter := p, term := c }),
         opIdx)
  let es :=
    if evar.isSome && is_known es evar then
      let es := es.modifyOp opIdx (fun op =>
        { op with kind := .withOp, r_in := evar.getD 0 })
      es.setInputToSubj opIdx term subj
    else if tvar.isSome && is_known es tvar then
      let es := es.modifyOp opIdx (fun op =>
        { op with kind := .withOp, r_in := tvar.getD 0 })
      es.setInputToSubj opIdx term subj
    else if tvar.isNone && evar.isNone && !wildcard_subj then
      let es := es.modifyOp opIdx (fun op => { op with kind := .withOp })
      es.setInputToSubj opIdx term subj
    else
      let es := es.modifyOp opIdx (fun op => { op with kind := .select })
      if !wildcard_subj then
        let es := es.setOutputToSubj opIdx term subj
        es.setWritten (subj.getD 0)
      else es
  let (es, opIdx) :=
    if eval_subject_supersets &&
        is_pair_known es (es.getOp opIdx).filter then
      let (es, jIdx) := insert_operation w es (-1)
      let es := es.modifyOp jIdx (fun op =>
        { op with kind := .setjmp, on_pass := (es.opCount : Int),
                  on_fail := (lbl_start : Int) - 1 })
      (es, jIdx)
    else (es, opIdx)
  let opFilter := (es.getOp opIdx).filter
  let es :=
    if opFilter.reg_mask &&& RULE_PAIR_PREDICATE ≠ 0 then
      es.setWritten opFilter.pred
    else es
  if opFilter.reg_mask &&& RULE_PAIR_OBJECT ≠ 0 then
    es.setWritten opFilter.obj
  else es

/-- prepare_predicate (rules.c line 2065): replace a non-final predicate by
the variable holding its IsA subsets. -/
def prepare_predicate (w : World) (es : EmitState) (pair : RulePair) :
    EmitState × RulePair :=
  if ¬pair.final then
    let isa_pair : RulePair := { (default : RulePair) with pred := EcsIsA, obj := pair.pred }
    let (es, pred) := store_inclusive_set w es .subset isa_pair true
    (es, { pair with pred := pred.getD 0,
                     reg_mask := pair.reg_mask ||| RULE_PAIR_PREDICATE })
  else (es, pair)

/-- insert_term_2 (rules.c line 2088): lower a term with subject and
object. -/
def insert_term_2 (w : World) (es : EmitState) (term : Term)
    (filter : RulePair) (c : Int) : EmitState :=
  let (es, subj) := get_most_specific_var es
    ((term_subj es.rule term).map (·.id))
  let subj_id : Int := match subj with | some s => (s : Int) | none => -1
  let (es, obj) := get_most_specific_var es
    ((term_obj es.rule term).map (·.id))
  let obj_id : Int := match obj with | some o => (o : Int) | none => -1
  if ¬filter.transitive then
    insert_select_or_with w es c term subj (some filter)
  else
    if is_known es subj then
      if is_known es obj then
        let (es, obj_subsets) := store_inclusive_set w es .subset filter true
        let subj := if subj.isSome then some subj_id.toNat else subj
        let pair := { filter with
          obj := (obj_subsets.getD 0),
          reg_mask := filter.reg_mask ||| RULE_PAIR_OBJECT }
        insert_select_or_with w es c term subj (some pair)
      else
        if subj = none ∨ (es.rule.getVar (subj.getD 0)).kind ==
            VarKind.entity then
          let obj := to_entity es.rule obj
          let set_pair :=
            { filter with reg_mask := filter.reg_mask &&& RULE_PAIR_PREDICATE }
          let set_pair :=
            match subj with
            | some s => { set_pair with
                obj := s,
                reg_mask := set_pair.reg_mask ||| RULE_PAIR_OBJECT }
            | none => { set_pair with obj := term.subj.entity }
          insert_inclusive_set w es .superset (obj.getD 0) set_pair c
            filter.inclusive
        else
          let (rule, av) := create_anonymous_variable es.rule VarKind.entity
          let es := { es with rule := rule }
          let subj := some subj_id.toNat
          let obj := to_entity es.rule (some obj_id.toNat)
          let set_pair := { filter with
            obj := av,
            reg_mask := filter.reg_mask ||| RULE_PAIR_OBJECT }
          let es := insert_select_or_with w es c term subj (some set_pair)
          let es := es.pushFrame
          insert_inclusive_set w es .superset (obj.getD 0) set_pair c true
    else
      if is_known es obj then
        let set_pair :=
          { filter with reg_mask := filter.reg_mask &&& RULE_PAIR_PREDICATE }
        let set_pair :=
          match obj with
          | some o => { set_pair with
              obj := o,
              reg_mask := set_pair.reg_mask ||| RULE_PAIR_OBJECT }
          | none => { set_pair with obj := term.obj.entity }
        insert_inclusive_set w es .subset (subj.getD 0) set_pair c
          filter.inclusive
      else if subj = obj then
        insert_select_or_with w es c term subj (some filter)
      else
        let (rule, av) := create_anonymous_variable es.rule VarKind.entity
        let es := { es with rule := rule }
        let subj := some subj_id.toNat
        let obj := to_entity es.rule (some obj_id.toNat)
        let (es, opIdx) := insert_operation w es (-1)
        let es := es.modifyOp opIdx (fun op => { op with kind := .select })
        let es := es.setOutputToSubj opIdx term subj
        let es := es.modifyOp opIdx (fun op =>
          { op with filter := { op.filter with
              pred := filter.pred, obj := av,
              reg_mask := filter.reg_mask ||| RULE_PAIR_OBJECT } })
        let es := es.setWritten (subj.getD 0)
        let es := es.setWritten av
        let es := es.pushFrame
        insert_inclusive_set w es .superset (obj.getD 0)
          (es.getOp opIdx).filter c true

/-- insert_term_1 (rules.c line 2238): lower a term with only a subject. -/
def insert_term_1 (w : World) (es : EmitState) (term : Term)
    (filter : RulePair) (c : Int) : EmitState :=
  let (es, subj) := get_most_specific_var es
    ((term_subj es.rule term).map (·.id))
  insert_select_or_with w es c term subj (some filter)

/-- insert_term (rules.c line 2251): lower one term, wrapping Not terms in
a Not pair and patching the exit label of Optional terms. -/
def insert_term (w : World) (es : EmitState) (term : Term) (c : Int) :
    EmitState :=
  let obj_set := obj_is_set term
  let (es, _) := ensure_most_specific_var es
    ((term_pred es.rule term).map (·.id))
  let es :=
    if obj_set then
      (ensure_most_specific_var es ((term_obj es.rule term).map (·.id))).1
    else es
  let prev := es.opCount
  let es :=
    if term.oper == TermOper.not then
      let (es, npIdx) := insert_operation w es (-1)
      es.modifyOp npIdx (fun op =>
        { op with kind := .notOp, has_in := false, has_out := false })
    else es
  let filter := term_to_pair w es.rule term
  let (es, filter) := prepare_predicate w es filter
  let es :=
    if subj_is_set term && !obj_set then insert_term_1 w es term filter c
    else if obj_set then insert_term_2 w es term filter c
    else es
  let es :=
    if term.oper == TermOper.not then
      let (es, postIdx) := insert_operation w es (-1)
      let es := es.modifyOp postIdx (fun op =>
        { op with kind := .notOp, has_in := false, has_out := false,
                  on_pass := (prev : Int) - 1, on_fail := (prev : Int) - 1 })
      es.modifyOp prev (fun op =>
        { op with on_fail := (es.opCount : Int) })
    else es
  let es :=
    if term.oper == TermOper.optional then
      let (es, jIdx) := insert_operation w es (-1)
      let es := es.modifyOp jIdx (fun op =>
        { op with kind := .notOp, has_in := false, has_out := false,
                  on_pass := (es.opCount : Int),
                  on_fail := (prev : Int) - 1 })
      let count := es.opCount
      let scan :=
        (List.range (count - prev)).foldl
          (fun (acc : Int × Int) k =>
            let i := prev + k
            let op := es.getOp i
            if acc.1 = -1 ∨ (op.on_fail ≥ 0 ∧ op.on_fail < acc.1) then
              (op.on_fail, (i : Int))
            else acc)
          (-1, -1)
      let exit_op := scan.2
      if exit_op ≥ 0 then
        es.modifyOp exit_op.toNat (fun op =>
          { op with on_fail := (count : Int) - 1 })
      else es
    else es
  es.pushFrame

/-- compile_program (rules.c line 2328): lower the terms in the documented
order (literal subjects, subject variables in sorted order, wildcard
subjects, Not terms, Optional terms, Each closures, Yield). -/
def compile_program (w : World) (st : RuleBuild) : RuleBuild :=
  let es : EmitState :=
    { rule := st, written := List.replicate ECS_RULE_MAX_VARIABLE_COUNT false }
  let es := insert_input es
  let termsIdx := st.terms.enum
  let es := termsIdx.foldl
    (fun es (p : Nat × Term) =>
      let (c, term) := p
      if skip_term term then es
      else if term.oper == TermOper.optional then es
      else if (term_subj es.rule term).isSome then es
      else if term.subj.entity == EcsWildcard then es
      else insert_term w es term (c : Int))
    es
  let es := (List.range st.subject_variable_count).foldl
    (fun es v =>
      termsIdx.foldl
        (fun es (p : Nat × Term) =>
          let (c, term) := p
          if skip_term term then es
          else if term.oper == TermOper.optional then es
          else
            match term_subj es.rule term with
            | some sv =>
                if sv.id = v then insert_term w es term (c : Int) else es
            | none => es)
        es)
    es
  let es := termsIdx.foldl
    (fun es (p : Nat × Term) =>
      let (c, term) := p
      if term.subj.entity != EcsWildcard then es
      else insert_term w es term (c : Int))
    es
  let es := termsIdx.foldl
    (fun es (p : Nat × Term) =>
      let (c, term) := p
      if term.oper != TermOper.not then es
      else insert_term w es term (c : Int))
    es
  let es := termsIdx.foldl
    (fun es (p : Nat × Term) =>
      let (c, term) := p
      if term.oper != TermOper.optional then es
      else insert_term w es term (c : Int))
    es
  let varCount := es.rule.vars.length
  let es := (List.range varCount).foldl
    (fun es v =>
      if v < es.rule.subject_variable_count then es
      else if es.isWritten v then es
      else
        let var := es.rule.getVar v
        let table_var :=
          find_variable es.rule.vars VarKind.table var.name
        let (es, opIdx) := insert_operation w es (-1)
        let es := es.modifyOp opIdx (fun op =>
          { op with kind := .each, r_in := optVarId table_var, r_out := v,
                    frame := es.rule.frame_count,
                    has_in := true, has_out := true })
        let es := es.setWritten v
        es.pushFrame)
    es
  let es := insert_yield es
  es.rule

/-- The compiled rule: the fields of ecs_rule_t that iteration reads. -/
structure Rule where
  operations : List RuleOp
  vars : List RuleVar
  terms : List Term
  subject_variables : List Int
  frame_count : Nat
  subject_variable_count : Nat
deriving Repr

def Rule.variable_count (r : Rule) : Nat := r.vars.length

def Rule.getVar (r : Rule) (i : Nat) : RuleVar := (r.vars[i]?).getD default

/-- The errors ecs_rule_init can report. -/
inductive InitError where
  | noTerms
  | onlyNotTerms
  | scanFailed (e : ScanError)
deriving DecidableEq, Repr

/-- ecs_rule_init (rules.c line 2521), starting from the post-parse term
list (ecs_filter_init, the term parser, is out of scope).  Fails with the
documented errors; on success the compiled rule is returned.  The all-Not
loop of the source breaks at the first non-Not term and errors when it ran
through all of them. -/
def ecs_rule_init (w : World) (terms : List Term) : Except InitError Rule :=
  if terms.length = 0 then Except.error InitError.noTerms
  else if terms.all (fun t => t.oper == TermOper.not) then
    Except.error InitError.onlyNotTerms
  else
    match scan_variables terms with
    | Except.error e => Except.error (InitError.scanFailed e)
    | Except.ok st =>
        let st := compile_program w st
        let subject_variables := st.terms.map (fun term =>
          if term_id_is_variable term.subj then
            match term_id_var_name term.subj with
            | some n =>
                match find_variable st.vars VarKind.entity n with
                | some v => (v.id : Int)
                | none => -1
            | none => -1
          else -1)
        Except.ok
          { operations := st.operations, vars := st.vars,
            terms := st.terms, subject_variables := subject_variables,
            frame_count := st.frame_count,
            subject_variable_count := st.subject_variable_count }

/-- ecs_rule_find_var (rules.c line 2771): public lookup of a variable by
name, resolving Entity-kind variables only. -/
def ecs_rule_find_var (r : Rule) (name : String) : Int :=
  match find_variable r.vars VarKind.entity name with
  | some v => (v.id : Int)
  | none => -1

/-- ecs_rule_reg_t: a register slot.  The table field holds a table index
into the world. -/
structure RuleReg where
  table : Option Nat
  offset : Nat
  count : Nat
  entity : Entity
deriving DecidableEq, Repr

instance : Inhabited RuleReg := ⟨⟨none, 0, 0, 0⟩⟩

/-- ecs_rule_filter_t. -/
structure RuleFilter where
  mask : Id
  wildcard : Bool
  pred_wildcard : Bool
  obj_wildcard : Bool
  same_var : Bool
  hi_var : Int
  lo_var : Int
deriving DecidableEq, Repr

/-- ecs_rule_with_ctx_t / subset / superset / each / setjmp contexts.  The
C code keeps them in a per-operation union; the model uses a sum with a
zeroed default (op_ctx is calloc'd). -/
structure SubsetFrame where
  idr : Option IdRecord
  table_index : Nat
  table : Option Nat
  row : Nat
  column : Int
deriving DecidableEq, Repr

instance : Inhabited SubsetFrame := ⟨⟨none, 0, none, 0, 0⟩⟩

structure SupersetFrame where
  table : Option Nat
  column : Int
deriving DecidableEq, Repr

instance : Inhabited SupersetFrame := ⟨⟨none, 0⟩⟩

inductive OpCtx where
  | empty
  | withCtx (idr : Option IdRecord) (table_index : Nat)
  | subsetCtx (stack : List SubsetFrame) (sp : Int)
  | supersetCtx (stack : List SupersetFrame) (idr : Option IdRecord) (sp : Int)
  | eachCtx (row : Nat)
  | setjmpCtx (label : Int)
deriving DecidableEq, Repr

/-- ecs_rule_iter_t plus the public iterator arrays it populates (it->ids,
it->subjects, it->variables — the latter is called vals here because the
identifier variables is reserved in Lean).  registers and columns are the
flat frame-major arrays of the C allocation. -/
structure RuleIter where
  registers : List RuleReg
  columns : List Int
  op_ctx : List OpCtx
  op : Int
  redo : Bool
  ids : List Id
  subjects : List Entity
  vals : List Entity
deriving DecidableEq, Repr

/-- Read a flat list at a signed index (out-of-range reads yield the
all-zero default, standing in for the uninitialized memory the C code would
read; the runs proved about below never read uninitialized slots except
through the columns[-1] offset noted at eval_select). -/
def listGetI {a : Type} [Inhabited a] (l : List a) (i : Int) : a :=
  if i < 0 then default else (l[i.toNat]?).getD default

/-- Write a flat list at a signed index (out-of-range writes are dropped). -/
def listSetI {a : Type} (l : List a) (i : Int) (v : a) : List a :=
  if i < 0 then l else l.set i.toNat v

/-- Flat index of register (frame, var): frame * variable_count + var
(get_register_frame, rules.c line 616). -/
def regIndex (r : Rule) (frame : Int) (v : Nat) : Int :=
  frame * (r.variable_count : Int) + (v : Int)

def reg_get (r : Rule) (it : RuleIter) (frame : Int) (v : Nat) : RuleReg :=
  listGetI it.registers (regIndex r frame v)

def reg_set (r : Rule) (it : RuleIter) (frame : Int) (v : Nat)
    (reg : RuleReg) : RuleIter :=
  { it with registers := listSetI it.registers (regIndex r frame v) reg }

/-- Flat index of column (frame, term): frame * term_count + term
(rule_get_columns_frame, rules.c line 643).  term is signed: the
columns[op->term] accesses of eval_select with term = -1 land on the last
column slot of the previous frame, exactly as the C pointer arithmetic
does. -/
def colIndex (r : Rule) (frame : Int) (term : Int) : Int :=
  frame * (r.terms.length : Int) + term

def col_get (r : Rule) (it : RuleIter) (frame : Int) (term : Int) : Int :=
  listGetI it.columns (colIndex r frame term)

def col_set (r : Rule) (it : RuleIter) (frame : Int) (term : Int)
    (v : Int) : RuleIter :=
  { it with columns := listSetI it.columns (colIndex r frame term) v }

def ctx_get (it : RuleIter) (i : Nat) : OpCtx :=
  (it.op_ctx[i]?).getD OpCtx.empty

def ctx_set (it : RuleIter) (i : Nat) (c : OpCtx) : RuleIter :=
  { it with op_ctx := it.op_ctx.set i c }

/-- entity_reg_get (rules.c line 688): an empty entity register reads as
the wildcard. -/
def entity_reg_get (w : World) (r : Rule) (it : RuleIter) (frame : Int)
    (v : Nat) : Entity :=
  let e := (reg_get r it frame v).entity
  if e = 0 then EcsWildcard
  else if ecs_is_valid w e then e
  else 0

/-- entity_reg_set (rules.c line 672): writes only the entity slot; invalid
entities are rejected (ecs_check) and leave the register unchanged. -/
def entity_reg_set (w : World) (r : Rule) (it : RuleIter) (frame : Int)
    (v : Nat) (e : Entity) : RuleIter :=
  if ecs_is_valid w e then
    reg_set r it frame v { reg_get r it frame v with entity := e }
  else it

/-- table_reg_set (rules.c line 706). -/
def table_reg_set (r : Rule) (it : RuleIter) (frame : Int) (v : Nat)
    (table : Option Nat) : RuleIter :=
  reg_set r it frame v { table := table, offset := 0, count := 0, entity := 0 }

/-- table_reg_get (rules.c line 723). -/
def table_reg_get (r : Rule) (it : RuleIter) (frame : Int) (v : Nat) :
    Option Nat :=
  (reg_get r it frame v).table

/-- reg_get_entity (rules.c line 736). -/
def reg_get_entity (w : World) (r : Rule) (it : RuleIter) (op : RuleOp)
    (frame : Int) (rid : Nat) : Entity :=
  if rid = UINT8_MAX then
    if ecs_is_valid w op.subject then op.subject else 0
  else
    match (r.getVar rid).kind with
    | .table =>
        let reg := reg_get r it frame rid
        let ents := tableEntities w reg.table
        let e := (ents[reg.offset]?).getD 0
        if ecs_is_valid w e then e else 0
    | .entity => entity_reg_get w r it frame rid
    | .unknown => 0

/-- reg_get_table (rules.c line 780). -/
def reg_get_table (w : World) (r : Rule) (it : RuleIter) (op : RuleOp)
    (frame : Int) (rid : Nat) : Option Nat :=
  if rid = UINT8_MAX then
    if ecs_is_valid w op.subject then table_from_entity w op.subject
    else none
  else
    match (r.getVar rid).kind with
    | .table => table_reg_get r it frame rid
    | .entity => table_from_entity w (entity_reg_get w r it frame rid)
    | .unknown => none

/-- reg_set_entity (rules.c line 804): an entity stored into a table-kind
register becomes a one-row table slice when the entity is stored in a
table. -/
def reg_set_entity (w : World) (r : Rule) (it : RuleIter) (frame : Int)
    (rid : Nat) (e : Entity) : RuleIter :=
  if (r.getVar rid).kind == VarKind.table then
    if ¬ecs_is_valid w e then it
    else
      match ecs_eis_get w e with
      | none =>
          reg_set r it frame rid
            { table := none, offset := 0, count := 0, entity := e }
      | some (ti, row) =>
          reg_set r it frame rid
            { table := some ti, offset := row, count := 1, entity := 0 }
  else
    entity_reg_set w r it frame rid e

/-- pair_to_filter (rules.c line 922): reify a pair into a concrete filter
using the registers of the previous frame. -/
def pair_to_filter (w : World) (r : Rule) (it : RuleIter) (op : RuleOp)
    (pair : RulePair) : RuleFilter :=
  let frame : Int := (op.frame : Int) - 1
  let pred := pair.pred
  let obj := pair.obj
  let result : RuleFilter :=
    { mask := default, wildcard := false, pred_wildcard := false,
      obj_wildcard := false, same_var := false, hi_var := -1, lo_var := -1 }
  let (obj, result) :=
    if pair.reg_mask &&& RULE_PAIR_OBJECT ≠ 0 then
      let o := entity_reg_get w r it frame pair.obj
      if o = EcsWildcard then
        (o, { result with wildcard := true, obj_wildcard := true,
                          lo_var := (pair.obj : Int) })
      else (o, result)
    else (obj, result)
  let (pred, result) :=
    if pair.reg_mask &&& RULE_PAIR_PREDICATE ≠ 0 then
      let p := entity_reg_get w r it frame pair.pred
      if p = EcsWildcard then
        let result :=
          if result.wildcard then
            { result with same_var := pair.pred == pair.obj }
          else result
        let result := { result with wildcard := true, pred_wildcard := true }
        if obj ≠ 0 then
          (p, { result with hi_var := (pair.pred : Int) })
        else
          (p, { result with lo_var := (pair.pred : Int) })
      else (p, result)
    else (pred, result)
  if obj = 0 ∧ ¬pair.obj_0 then { result with mask := Id.plain pred }
  else { result with mask := ecs_pair pred obj }

/-- reify_variables (rules.c line 986): write the matched column's halves
into the wildcard variables of the filter. -/
def reify_variables (w : World) (r : Rule) (it : RuleIter) (op : RuleOp)
    (filter : RuleFilter) (type : List Id) (column : Int) : RuleIter :=
  let frame : Int := (op.frame : Int)
  let elem := rule_get_column type column
  let it :=
    if filter.lo_var ≠ -1 then
      entity_reg_set w r it frame filter.lo_var.toNat
        (ecs_get_alive w elem.lo)
    else it
  if filter.hi_var ≠ -1 then
    entity_reg_set w r it frame filter.hi_var.toNat
      (ecs_get_alive w elem.pairRelation)
  else it

/-- find_next_same_var (rules.c line 2917): scan for the next column whose
id is a pair with equal relation and object; a non-pair id ends the scan. -/
def find_next_same_var (type : List Id) (column : Int) (_pattern : Id) :
    Int :=
  let start : Nat := (column + 1).toNat
  let rec go (remaining : List Id) (i : Nat) : Int :=
    match remaining with
    | [] => -1
    | idv :: rest =>
        if ¬idv.isPair then -1
        else if idv.pairRelation = idv.lo then (i : Int)
        else go rest (i + 1)
  go (type.drop start) start

/-- find_next_column (rules.c line 2951).  The first call (column = -1)
takes the table record's column; a redo tests only the directly following
column against the mask (matching columns are contiguous). -/
def find_next_column (w : World) (table : Option Nat) (column : Int)
    (filter : RuleFilter) : Int :=
  let pattern := filter.mask
  let type := tableType w table
  let column :=
    if column = -1 then
      match flecs_get_table_record w table pattern with
      | none => (-2 : Int)
      | some c => (c : Int)
    else
      let column := column + 1
      if (type.length : Int) ≤ column then -2
      else if ¬ecs_id_match (rule_get_column type column) pattern then -2
      else column
  if column = -2 then -1
  else if filter.same_var then find_next_same_var type column pattern
  else column

/-- find_next_table (rules.c line 2990): advance through an id record's
table records from table_index; returns the found (table, column) together
with the updated table_index. -/
def find_next_table (w : World) (filter : RuleFilter) (idr : IdRecord)
    (table_index : Nat) : (Option Nat × Int) × Nat :=
  let rec go (remaining : List TableRecord) (i : Nat) :
      (Option Nat × Int) × Nat :=
    match remaining with
    | [] => ((none, -1), i)
    | tr :: rest =>
        let table := tr.table
        let column : Int :=
          if filter.same_var then
            find_next_same_var (tableType w (some table))
              ((tr.column : Int) - 1) filter.mask
          else (tr.column : Int)
        if column = -1 then go rest (i + 1)
        else ((some table, column), i + 1)
  go (idr.drop table_index) table_index

/-- Write it->ids[term]. -/
def ids_set (it : RuleIter) (term : Int) (v : Id) : RuleIter :=
  if term < 0 then it else { it with ids := it.ids.set term.toNat v }

/-- Write it->subjects[term]. -/
def subjects_set (it : RuleIter) (term : Int) (v : Entity) : RuleIter :=
  if term < 0 then it
  else { it with subjects := it.subjects.set term.toNat v }

/-- set_column (rules.c line 3047). -/
def set_column (it : RuleIter) (op : RuleOp) (type : Option (List Id))
    (column : Int) : RuleIter :=
  if op.term = -1 then it
  else
    match type with
    | some ty => ids_set it op.term (rule_get_column ty column)
    | none => ids_set it op.term (Id.plain 0)

/-- set_source (rules.c line 3068). -/
def set_source (w : World) (r : Rule) (it : RuleIter) (op : RuleOp)
    (frame : Int) (rid : Nat) : RuleIter :=
  if op.term = -1 then it
  else if rid ≠ UINT8_MAX ∧ (r.getVar rid).kind == VarKind.entity then
    subjects_set it op.term (reg_get_entity w r it op frame rid)
  else
    subjects_set it op.term 0

/-- eval_input (rules.c line 3093). -/
def eval_input (_it : RuleIter) (redo : Bool) : Bool := !redo

/-- The with/select context of an operation. -/
def with_ctx_of (it : RuleIter) (op_index : Nat) : Option IdRecord × Nat :=
  match ctx_get it op_index with
  | .withCtx idr ti => (idr, ti)
  | _ => (none, 0)

/-- eval_select (rules.c line 3361). -/
def eval_select (w : World) (r : Rule) (it : RuleIter) (op : RuleOp)
    (op_index : Nat) (redo : Bool) : Bool × RuleIter :=
  let rid := op.r_out
  let pair := op.filter
  let filter := pair_to_filter w r it op pair
  let pattern := filter.mask
  let frame : Int := (op.frame : Int)
  let it :=
    if ¬redo ∧ op.term ≠ -1 then
      let it := ids_set it op.term pattern
      col_set r it frame op.term (-1)
    else it
  let idr : Option IdRecord :=
    if redo then (with_ctx_of it op_index).1
    else find_tables w pattern
  match idr with
  | none =>
      let it := if ¬redo then ctx_set it op_index (.withCtx none 0) else it
      (false, it)
  | some idrec =>
      if ¬redo then
        let ((tbl, column), newIdx) := find_next_table w filter idrec 0
        let it := ctx_set it op_index (.withCtx (some idrec) newIdx)
        match tbl with
        | none => (false, it)
        | some table =>
            let it := col_set r it frame op.term column
            let it := table_reg_set r it frame rid (some table)
            let ty := tableType w (some table)
            let it :=
              if filter.wildcard then reify_variables w r it op filter ty column
              else it
            let it :=
              if ¬pair.obj_0 then set_column it op (some ty) column else it
            (true, it)
      else
        let tableIndex := (with_ctx_of it op_index).2
        let (table0, column0, it) :=
          if filter.wildcard then
            let table := table_reg_get r it frame rid
            let column := col_get r it frame op.term
            let column := find_next_column w table column filter
            let it := col_set r it frame op.term column
            (table, column, it)
          else (none, -1, it)
        if column0 = -1 then
          let ((tbl, column), newIdx) :=
            find_next_table w filter idrec tableIndex
          let it := ctx_set it op_index (.withCtx (some idrec) newIdx)
          match tbl with
          | none => (false, it)
          | some table =>
              let it := table_reg_set r it frame rid (some table)
              let it := col_set r it frame op.term column
              let ty := tableType w (some table)
              let it :=
                if filter.wildcard then
                  reify_variables w r it op filter ty column
                else it
              let it :=
                if ¬pair.obj_0 then set_column it op (some ty) column else it
              (true, it)
        else
          let ty := tableType w table0
          let it :=
            if filter.wildcard then
              reify_variables w r it op filter ty column0
            else it
          let it :=
            if ¬pair.obj_0 then set_column it op (some ty) column0 else it
          (true, it)

/-- eval_with (rules.c line 3484), including the inclusive-transitive
special case: a transitive + inclusive pair whose resolved subject equals
its resolved object passes immediately. -/
def eval_with (w : World) (r : Rule) (it : RuleIter) (op : RuleOp)
    (op_index : Nat) (redo : Bool) : Bool × RuleIter :=
  let rid := op.r_in
  let pair := op.filter
  let filter := pair_to_filter w r it op pair
  let frame : Int := (op.frame : Int)
  if redo ∧ ¬filter.wildcard then (false, it)
  else
    let it :=
      if ¬redo ∧ op.term ≠ -1 then col_set r it frame op.term (-1) else it
    let inclusiveHit : Bool :=
      if ¬redo ∧ pair.transitive ∧ pair.inclusive then
        let subj : Entity :=
          if rid = UINT8_MAX then op.subject
          else if (r.getVar rid).kind == VarKind.entity then
            entity_reg_get w r it frame rid
          else 0
        if subj ≠ 0 then
          if ¬filter.obj_wildcard then
            decide (subj = filter.mask.lo)
          else false
        else false
      else false
    if inclusiveHit then
      (true, ids_set it op.term filter.mask)
    else
      let idr : Option IdRecord :=
        if redo then (with_ctx_of it op_index).1
        else find_tables w filter.mask
      let it :=
        if ¬redo then
          ctx_set it op_index (.withCtx idr (with_ctx_of it op_index).2)
        else it
      match idr with
      | none => (false, it)
      | some _ =>
          match reg_get_table w r it op frame rid with
          | none => (false, it)
          | some table =>
              let column :=
                if ¬redo then
                  find_next_column w (some table) (-1) filter
                else
                  find_next_column w (some table)
                    (col_get r it frame op.term) filter
              if column = -1 then (false, it)
              else
                let it := col_set r it frame op.term column
                let ty := tableType w (some table)
                let it :=
                  if filter.wildcard then
                    reify_variables w r it op filter ty column
                  else it
                let it :=
                  if ¬pair.obj_0 then set_column it op (some ty) column
                  else it
                let it := set_source w r it op frame rid
                (true, it)

/-- eval_store (rules.c line 3713). -/
def eval_store (w : World) (r : Rule) (it : RuleIter) (op : RuleOp)
    (redo : Bool) : Bool × RuleIter :=
  if redo then (false, it)
  else
    let frame : Int := (op.frame : Int)
    let e := reg_get_entity w r it op frame op.r_in
    let it := reg_set_entity w r it frame op.r_out e
    let it :=
      if op.term ≥ 0 then
        let filter := pair_to_filter w r it op op.filter
        ids_set it op.term filter.mask
      else it
    (true, it)

/-- eval_setjmp (rules.c line 3748). -/
def eval_setjmp (it : RuleIter) (op : RuleOp) (op_index : Nat)
    (redo : Bool) : Bool × RuleIter :=
  if ¬redo then
    (true, ctx_set it op_index (.setjmpCtx op.on_pass))
  else
    (false, ctx_set it op_index (.setjmpCtx op.on_fail))

/-- eval_jump (rules.c line 3772). -/
def eval_jump (_it : RuleIter) (redo : Bool) : Bool := !redo

/-- eval_not (rules.c line 3788). -/
def eval_not (_it : RuleIter) (redo : Bool) : Bool := !redo

/-- eval_yield (rules.c line 3806): always false; backtracks. -/
def eval_yield (_it : RuleIter) (_redo : Bool) : Bool := false

/-- Write a stack slot, growing the stack as the C code's in-place storage
writes at sp+1 would (the source keeps a fixed 16-slot array and never
bounds-checks it). -/
def stack_set {a : Type} [Inhabited a] (l : List a) (i : Nat) (v : a) :
    List a :=
  if i < l.length then l.set i v
  else l ++ List.replicate (i - l.length) default ++ [v]

def superset_ctx_of (it : RuleIter) (op_index : Nat) :
    List SupersetFrame × Int :=
  match ctx_get it op_index with
  | .supersetCtx stack _ sp => (stack, sp)
  | _ => ([], 0)

/-- The descending scan of eval_superset's redo path (rules.c lines
3196-3215): pop frames until one yields a next column. -/
def eval_superset_scan (w : World) (r : Rule) (op : RuleOp)
    (super_filter : RuleFilter) (stack : List SupersetFrame) :
    Nat → Int → Option (List SupersetFrame × Int × Int)
  | 0, _ => none
  | fuel + 1, sp =>
      if sp < 0 then none
      else
        let frame : SupersetFrame := (stack[sp.toNat]?).getD default
        let column :=
          find_next_column w frame.table frame.column super_filter
        if column ≠ -1 then
          some (stack_set stack sp.toNat { frame with column := column },
                sp, column)
        else
          eval_superset_scan w r op super_filter stack fuel (sp - 1)

/-- eval_superset (rules.c line 3115). -/
def eval_superset (w : World) (r : Rule) (it : RuleIter) (op : RuleOp)
    (op_index : Nat) (redo : Bool) : Bool × RuleIter :=
  let rid := op.r_out
  let frame : Int := (op.frame : Int)
  let pair := op.filter
  let filter := pair_to_filter w r it op pair
  let super_filter : RuleFilter :=
    { mask := ecs_pair filter.mask.pairRelation EcsWildcard,
      wildcard := false, pred_wildcard := false, obj_wildcard := false,
      same_var := false, hi_var := -1, lo_var := -1 }
  if ¬redo then
    let obj := filter.mask.lo
    let table := table_from_entity w obj
    let column := find_next_column w table (-1) super_filter
    if column = -1 then
      (false, ctx_set it op_index (.supersetCtx [default] none 0))
    else
      let ty := tableType w table
      let col_entity := rule_get_column ty column
      let col_obj := col_entity.lo
      let it := entity_reg_set w r it frame rid col_obj
      let it := set_column it op (some ty) column
      let it := ctx_set it op_index
        (.supersetCtx [⟨table, column⟩] none 0)
      (true, it)
  else
    let (stack, sp0) := superset_ctx_of it op_index
    let sp := sp0
    let top : SupersetFrame := (stack[sp.toNat]?).getD default
    let ty := tableType w top.table
    let col_entity := rule_get_column ty top.column
    let col_obj := col_entity.lo
    let next_table := table_from_entity w col_obj
    let (stack, sp) :=
      match next_table with
      | some _ =>
          (stack_set stack (sp + 1).toNat ⟨next_table, -1⟩, sp + 1)
      | none => (stack, sp)
    match eval_superset_scan w r op super_filter stack
        (sp.toNat + 2) sp with
    | some (stack, sp, column) =>
        let frame' : SupersetFrame := (stack[sp.toNat]?).getD default
        let ty := tableType w frame'.table
        let col_obj := (rule_get_column ty column).lo
        let it := entity_reg_set w r it frame rid col_obj
        let it := set_column it op (some ty) column
        let it := ctx_set it op_index (.supersetCtx stack none sp)
        (true, it)
    | none =>
        -- On exhaustion the C code leaves op_ctx->sp untouched (it is only
        -- written on success); the extended stack storage persists.
        (false, ctx_set it op_index (.supersetCtx stack none sp0))

def each_ctx_of (it : RuleIter) (op_index : Nat) : Nat :=
  match ctx_get it op_index with
  | .eachCtx row => row
  | _ => 0

/-- The builtin-skipping row advance of eval_each (rules.c lines
3686-3693). -/
def eval_each_skip (entities : List Entity) (count : Nat) :
    Nat → Nat → Option Entity
  | 0, _ => none
  | fuel + 1, row =>
      let e := (entities[row]?).getD 0
      if e = EcsWildcard ∨ e = EcsThis then
        if row + 1 = count then none
        else eval_each_skip entities count fuel (row + 1)
      else some e

/-- eval_each (rules.c line 3635). -/
def eval_each (w : World) (r : Rule) (it : RuleIter) (op : RuleOp)
    (op_index : Nat) (redo : Bool) : Bool × RuleIter :=
  let frame : Int := (op.frame : Int)
  let r_in := op.r_in
  let r_out := op.r_out
  match table_reg_get r it frame r_in with
  | some table =>
      let reg := reg_get r it frame r_in
      let count :=
        if reg.count = 0 then ecs_table_count w (some table)
        else reg.count + reg.offset
      let entities := tableEntities w (some table)
      let row := if ¬redo then reg.offset else each_ctx_of it op_index + 1
      let it := ctx_set it op_index (.eachCtx row)
      if row ≥ count then (false, it)
      else
        match eval_each_skip entities count (count - row + 1) row with
        | none => (false, it)
        | some e => (true, entity_reg_set w r it frame r_out e)
  | none =>
      if ¬redo then
        let e := entity_reg_get w r it frame r_in
        (true, entity_reg_set w r it frame r_out e)
      else (false, it)

def subset_ctx_of (it : RuleIter) (op_index : Nat) :
    List SubsetFrame × Int :=
  match ctx_get it op_index with
  | .subsetCtx stack sp => (stack, sp)
  | _ => ([], 0)

/-- Outcome of the row-exhaustion loop of eval_subset's redo path (rules.c
lines 3278-3303). -/
inductive SubsetPop where
  | found (stack : List SubsetFrame) (sp : Int) (table : Nat) (column : Int)
  | exhausted (stack : List SubsetFrame)
  | proceed (stack : List SubsetFrame) (sp : Int)

/-- The row-exhaustion loop: while the top frame's row runs past its table,
advance to the frame's next table or pop the stack (decrementing the
persistent sp, as the C code does through op_ctx->sp). -/
def eval_subset_pop (w : World) (filter : RuleFilter)
    (stack : List SubsetFrame) : Nat → Int → SubsetPop
  | 0, _ => .exhausted stack
  | fuel + 1, sp =>
      if sp < 0 then .exhausted stack
      else
        let frame : SubsetFrame := (stack[sp.toNat]?).getD default
        if frame.row ≥ ecs_table_count w frame.table then
          let ((tbl, col), newIdx) :=
            find_next_table w filter (frame.idr.getD []) frame.table_index
          match tbl with
          | some table =>
              let stack := stack_set stack sp.toNat
                { frame with table_index := newIdx, table := some table,
                             row := 0, column := col }
              .found stack sp table col
          | none =>
              let stack := stack_set stack sp.toNat
                { frame with table_index := newIdx }
              let sp := sp - 1
              if sp < 0 then .exhausted stack
              else
                let below : SubsetFrame := (stack[sp.toNat]?).getD default
                let stack := stack_set stack sp.toNat
                  { below with row := below.row + 1 }
                eval_subset_pop w filter stack fuel sp
        else .proceed stack sp

/-- Outcome of the per-row loop of eval_subset's redo path (rules.c lines
3315-3349). -/
inductive SubsetRows where
  | pushed (stack : List SubsetFrame) (sp : Int) (pair : RulePair)
      (filter : RuleFilter)
  | norows (stack : List SubsetFrame) (pair : RulePair) (filter : RuleFilter)

/-- The per-row loop: rebuild the pair with the row's entity as literal
object, look its table set up and push the first non-empty table; advance
the row otherwise. -/
def eval_subset_rows (w : World) (r : Rule) (it : RuleIter) (op : RuleOp)
    (sp : Nat) (row_count : Nat) (entities : List Entity) :
    Nat → List SubsetFrame → Int → Nat → RulePair → SubsetRows
  | 0, stack, _, _, pair =>
      .norows stack pair (pair_to_filter w r it op pair)
  | fuel + 1, stack, spCtx, row, pair =>
      let e := (entities[row]?).getD 0
      -- pair.reg_mask &= ~RULE_PAIR_OBJECT (clear the object bit)
      let pair := { pair with
        reg_mask := pair.reg_mask - (pair.reg_mask &&& RULE_PAIR_OBJECT),
        obj := e }
      let filter := pair_to_filter w r it op pair
      let idr := find_tables w filter.mask
      let attempt :
          Option (List SubsetFrame × Int) ⊕ List SubsetFrame :=
        match idr with
        | some idrec =>
            let new_frame : SubsetFrame :=
              (stack[sp + 1]?).getD default
            let ((tbl, col), newIdx) := find_next_table w filter idrec 0
            let new_frame :=
              { new_frame with idr := some idrec, table_index := newIdx }
            match tbl with
            | some table =>
                let new_frame :=
                  { new_frame with table := some table, row := 0,
                                   column := col }
                Sum.inl (some (stack_set stack (sp + 1) new_frame,
                               spCtx + 1))
            | none =>
                Sum.inr (stack_set stack (sp + 1) new_frame)
        | none => Sum.inr stack
      match attempt with
      | Sum.inl (some (stack, spCtx)) => .pushed stack spCtx pair filter
      | Sum.inl none => .norows stack pair filter
      | Sum.inr stack =>
          let frame : SubsetFrame := (stack[sp]?).getD default
          let row := frame.row + 1
          let stack := stack_set stack sp { frame with row := row }
          if row < row_count then
            eval_subset_rows w r it op sp row_count entities fuel stack
              spCtx row pair
          else .norows stack pair filter

/-- The outer do-while of eval_subset's redo path (rules.c lines
3270-3350). -/
def eval_subset_outer (w : World) (r : Rule) (it : RuleIter) (op : RuleOp)
    (op_index : Nat) : Nat → List SubsetFrame → Int → RulePair →
    RuleFilter → Bool × RuleIter
  | 0, stack, spCtx, _, _ =>
      (false, ctx_set it op_index (.subsetCtx stack spCtx))
  | fuel + 1, stack, spCtx, pair, filter =>
      let frameI : Int := (op.frame : Int)
      match eval_subset_pop w filter stack (spCtx.toNat + 2) spCtx with
      | .found stack sp table col =>
          let it := ctx_set it op_index (.subsetCtx stack sp)
          let ty := tableType w (some table)
          let it := set_column it op (some ty) col
          let it := table_reg_set r it frameI op.r_out (some table)
          (true, it)
      | .exhausted stack =>
          (false, ctx_set it op_index (.subsetCtx stack (-1)))
      | .proceed stack sp =>
          let frame : SubsetFrame := (stack[sp.toNat]?).getD default
          let row_count := ecs_table_count w frame.table
          let entities := tableEntities w frame.table
          match eval_subset_rows w r it op sp.toNat row_count entities
              (row_count - frame.row + 1) stack sp frame.row pair with
          | .pushed stack spCtx pair' _ =>
              let it := ctx_set it op_index (.subsetCtx stack spCtx)
              let top : SubsetFrame := (stack[spCtx.toNat]?).getD default
              let ty := tableType w top.table
              let it := set_column it op (some ty) top.column
              let it := table_reg_set r it frameI op.r_out top.table
              let _ := pair'
              (true, it)
          | .norows stack pair' filter' =>
              eval_subset_outer w r it op op_index fuel stack spCtx pair'
                filter'

/-- eval_subset (rules.c line 3221). -/
def eval_subset (w : World) (r : Rule) (it : RuleIter) (op : RuleOp)
    (op_index : Nat) (redo : Bool) (fuel : Nat) : Bool × RuleIter :=
  let frameI : Int := (op.frame : Int)
  let pair := op.filter
  let filter := pair_to_filter w r it op pair
  if ¬redo then
    match find_tables w filter.mask with
    | none =>
        (false, ctx_set it op_index
          (.subsetCtx [{ (default : SubsetFrame) with idr := none }] 0))
    | some idrec =>
        let ((tbl, col), newIdx) := find_next_table w filter idrec 0
        let frame0 : SubsetFrame :=
          { idr := some idrec, table_index := newIdx, table := tbl,
            row := 0, column := col }
        let it' := ctx_set it op_index (.subsetCtx [frame0] 0)
        match tbl with
        | none => (false, it')
        | some table =>
            let ty := tableType w (some table)
            let it' := table_reg_set r it' frameI op.r_out (some table)
            let it' := set_column it' op (some ty) col
            (true, it')
  else
    let (stack, spCtx) := subset_ctx_of it op_index
    eval_subset_outer w r it op op_index fuel stack spCtx pair filter

/-- eval_op (rules.c line 3824): the dispatcher.  fuel bounds the loops of
eval_subset, which the C code leaves unbounded (its depth-first search does
not terminate on cyclic transitive data). -/
def eval_op (w : World) (r : Rule) (it : RuleIter) (op : RuleOp)
    (op_index : Nat) (redo : Bool) (fuel : Nat) : Bool × RuleIter :=
  match op.kind with
  | .input => (eval_input it redo, it)
  | .select => eval_select w r it op op_index redo
  | .withOp => eval_with w r it op op_index redo
  | .subset => eval_subset w r it op op_index redo fuel
  | .superset => eval_superset w r it op op_index redo
  | .each => eval_each w r it op op_index redo
  | .store => eval_store w r it op redo
  | .setjmp => eval_setjmp it op op_index redo
  | .jump => (eval_jump it redo, it)
  | .notOp => (eval_not it redo, it)
  | .yield => (eval_yield it redo, it)

/-- is_control_flow (rules.c line 3986). -/
def is_control_flow (op : RuleOp) : Bool :=
  match op.kind with
  | .setjmp => true
  | .jump => true
  | _ => false

/-- push_registers (rules.c line 3862): copy the whole register frame. -/
def push_registers (r : Rule) (it : RuleIter) (cur next : Int) : RuleIter :=
  if r.variable_count = 0 then it
  else
    (List.range r.variable_count).foldl
      (fun it v => reg_set r it next v (reg_get r it cur v)) it

/-- push_columns (rules.c line 3883): copy the matched-column frame. -/
def push_columns (r : Rule) (it : RuleIter) (cur next : Int) : RuleIter :=
  if r.terms.length = 0 then it
  else
    (List.range r.terms.length).foldl
      (fun it t => col_set r it next (t : Int) (col_get r it cur (t : Int)))
      it

/-- The frame-copy guard of the interpreter loop (rules.c line 4064): the
copy happens when this is not a redo, the operation is not control flow,
its frame is nonzero, and its frame differs from the frame of the last
non-control-flow operation dispatched in this next call (last_frame, which
starts at -1). -/
def rule_next_copy_guard (redo : Bool) (op : RuleOp) (last_frame : Int) :
    Bool :=
  !redo && !is_control_flow op && op.frame != 0 &&
    (op.frame : Int) != last_frame

/-- The frame-copy condition as claimed by the specification: redo is
false, the operation is not control flow, and the frame index is greater
than last_frame. -/
def claimed_copy_guard (redo : Bool) (op : RuleOp) (last_frame : Int) :
    Bool :=
  !redo && !is_control_flow op && last_frame < (op.frame : Int)

/-- One published result row: the this-column (table slice or entity via
its record), the variable values, per-term subjects, columns and ids.  The
component-data pointers filled by flecs_iter_populate_data belong to the
storage layer and are not modelled. -/
structure YieldRec where
  table : Option Nat
  offset : Nat
  count : Nat
  vals : List Entity
  subjects : List Entity
  columns : List Int
  ids : List Id
deriving DecidableEq, Repr

/-- populate_iterator (rules.c line 3900). -/
def populate_iterator (w : World) (r : Rule) (it : RuleIter)
    (op : RuleOp) : YieldRec × RuleIter :=
  let rid := op.r_in
  let frame : Int := (op.frame : Int)
  let (table, offset, count) :=
    if rid ≠ UINT8_MAX then
      let var := r.getVar rid
      let reg := reg_get r it frame rid
      if var.kind == VarKind.table then
        (reg.table, reg.offset, reg.count)
      else
        let e := reg.entity
        let record := (ecs_eis_get w e).getD (0, 0)
        (some record.1, record.2, 1)
    else (none, 0, 0)
  let vals := (List.range r.variable_count).map (fun i =>
    if (r.getVar i).kind == VarKind.entity then
      (reg_get r it frame i).entity
    else 0)
  let it := { it with vals := vals }
  let it := (List.range r.terms.length).foldl
    (fun it (i : Nat) =>
      let v := (r.subject_variables[i]?).getD (-1)
      if v ≠ -1 ∧ (r.getVar v.toNat).kind == VarKind.entity then
        subjects_set it (i : Int) (reg_get r it frame v.toNat).entity
      else it)
    it
  let it := (List.range r.terms.length).foldl
    (fun it (i : Nat) =>
      let subj := (it.subjects[i]?).getD 0
      let c := col_get r it frame (i : Int) + 1
      let it := col_set r it frame (i : Int) c
      if subj = 0 then
        if ((r.terms[i]?).getD default).subj.entity ≠ EcsThis then
          col_set r it frame (i : Int) 0
        else it
      else if c ≠ 0 then
        col_set r it frame (i : Int) (-1)
      else it)
    it
  let columns := (List.range r.terms.length).map
    (fun i => col_get r it frame (i : Int))
  (⟨table, offset, count, vals, it.subjects, columns, it.ids⟩, it)

/-- ecs_rule_iter (rules.c line 2839) together with the first-call
initialization block of ecs_rule_next (rules.c lines 4019-4040): allocate
the register matrix, initialize every frame-0 entity register to the
wildcard and every frame-0 table register to the empty table, reset the
first frame of columns to -1, and seed the public subjects and ids arrays
for literal-subject and Not / Optional / Nothing terms. -/
def ecs_rule_iter (w : World) (r : Rule) : RuleIter :=
  let opCount := r.operations.length
  let varCount := r.variable_count
  let termCount := r.terms.length
  let it : RuleIter :=
    { registers := List.replicate (opCount * varCount) default,
      columns := List.replicate (opCount * termCount) 0,
      op_ctx := List.replicate opCount OpCtx.empty,
      op := 0, redo := false,
      ids := List.replicate termCount default,
      subjects := List.replicate termCount 0,
      vals := List.replicate varCount 0 }
  let it := (List.range termCount).foldl
    (fun it i => col_set r it 0 (i : Int) (-1)) it
  let it := (List.range varCount).foldl
    (fun it i =>
      if (r.getVar i).kind == VarKind.entity then
        entity_reg_set w r it 0 i EcsWildcard
      else
        table_reg_set r it 0 i none)
    it
  let it := (List.range termCount).foldl
    (fun it (i : Nat) =>
      let term := (r.terms[i]?).getD default
      if term.subj.varSpec == VarSpec.isEntity &&
          term.subj.entity != EcsThis then
        subjects_set it (i : Int) term.subj.entity
      else it)
    it
  (List.range termCount).foldl
    (fun it (i : Nat) =>
      let term := (r.terms[i]?).getD default
      if term.subjNothing || term.oper == TermOper.not ||
          term.oper == TermOper.optional ||
          term.id == ecs_pair EcsChildOf 0 then
        ids_set it (i : Int) term.id
      else it)
    it

/-- The interpreter loop state: the iterator plus the last_frame local of
ecs_rule_next (reset to -1 at each next call, which the merged loop below
performs when a yield hands control back). -/
structure ExecState where
  it : RuleIter
  last_frame : Int
deriving Repr

/-- Outcome of one iteration of the do-while body of ecs_rule_next. -/
inductive StepResult where
  | yielded (y : YieldRec) (s : ExecState)
  | finished
  | next (s : ExecState)

/-- One iteration of the do-while loop of ecs_rule_next (rules.c lines
4042-4093): optionally copy the previous frame forward, dispatch the
operation, follow on_pass / on_fail, publish on Yield, redirect Jump
through the stored SetJmp label, recompute redo and last_frame. -/
def rule_next_step (w : World) (r : Rule) (fuel : Nat) (s : ExecState) :
    StepResult :=
  let op_index := s.it.op
  let op := (r.operations[op_index.toNat]?).getD default
  let cur : Int := (op.frame : Int)
  let redo := s.it.redo
  let it :=
    if rule_next_copy_guard redo op s.last_frame then
      let prev := cur - 1
      let it := push_registers r s.it prev cur
      push_columns r it prev cur
    else s.it
  let (result, it) := eval_op w r it op op_index.toNat redo fuel
  let it := { it with op := if result then op.on_pass else op.on_fail }
  if op.kind == OpKind.yield then
    let (y, it) := populate_iterator w r it op
    .yielded y { it := { it with redo := true }, last_frame := -1 }
  else
    let it :=
      if op.kind == OpKind.jump then
        { it with op :=
            match ctx_get it op.on_pass.toNat with
            | .setjmpCtx label => label
            | _ => 0 }
      else it
    let it := { it with redo := it.op ≤ op_index }
    let last_frame := if is_control_flow op then s.last_frame else cur
    if it.op = -1 then .finished
    else .next { it := it, last_frame := last_frame }

/-- Run the interpreter to completion, collecting every yielded row.  The
outer fuel bounds the number of dispatched operations; none is returned
when it runs out before the program terminates. -/
def run_loop (w : World) (r : Rule) (efuel : Nat) :
    Nat → ExecState → List YieldRec → Option (List YieldRec)
  | 0, _, _ => none
  | fuel + 1, s, acc =>
      match rule_next_step w r efuel s with
      | .finished => some acc.reverse
      | .yielded y s' => run_loop w r efuel fuel s' (y :: acc)
      | .next s' => run_loop w r efuel fuel s' acc

/-- Fuel for the unbounded inner loops of eval_subset, derived from the
world (strictly more than any terminating DFS can take on it). -/
def eval_fuel (w : World) : Nat :=
  let total := w.tables.foldl (fun a t => a + t.entities.length) 0
  (total + w.tables.length + 2) * (total + w.tables.length + 2)

/-- A full iteration: create the iterator (ecs_rule_iter) and drive
ecs_rule_next until it reports completion, collecting the yields. -/
def run_full (w : World) (r : Rule) (fuel : Nat) :
    Option (List YieldRec) :=
  run_loop w r (eval_fuel w) fuel
    { it := ecs_rule_iter w r, last_frame := -1 } []

instance : Inhabited Rule := ⟨⟨[], [], [], [], 0, 0⟩⟩

/-- Modelled from the spec: the entities a yield exposes for the this
column — the (table, offset, count) slice, where count 0 selects the whole
table (flecs_iter_populate_data). -/
def yield_this_entities (w : World) (y : YieldRec) : List Entity :=
  match y.table with
  | none => []
  | some ti =>
      let ents := tableEntities w (some ti)
      if y.count = 0 then ents
      else (ents.drop y.offset).take y.count

/-- Whether a scan result is the "too many variables in rule" error. -/
def reports_too_many (res : Except ScanError RuleBuild) : Bool :=
  match res with
  | Except.error ScanError.tooManyVariables => true
  | _ => false

/-- The four-key comparator the specification claims (second definition,
following the claim's words: kind ascending, depth ascending, occurrence
descending, id descending as the final tie-break). -/
def compare_variable_claimed (v1 v2 : RuleVar) : Int :=
  if v1.kind.val < v2.kind.val then -1
  else if v1.kind.val > v2.kind.val then 1
  else if v1.depth < v2.depth then -1
  else if v1.depth > v2.depth then 1
  else if v1.occurs > v2.occurs then -1
  else if v1.occurs < v2.occurs then 1
  else if v1.id > v2.id then -1
  else if v1.id < v2.id then 1
  else 0

/-- The comparator as the code actually decides it (amended claim): kind
ascending, depth ascending, then occurrences — 1 when v1 occurs less than
v2 and -1 otherwise, so ties on occurrences compare as -1 and the id is
never consulted. -/
def compare_variable_amended (v1 v2 : RuleVar) : Int :=
  if v1.kind.val ≠ v2.kind.val then
    if v1.kind.val < v2.kind.val then -1 else 1
  else if v1.depth ≠ v2.depth then
    if v1.depth < v2.depth then -1 else 1
  else if v1.occurs < v2.occurs then 1
  else -1

/-- Two variables equal in kind, depth and occurrences, differing only in
id (counterexample input for the comparator claim). -/
def c4v1 : RuleVar :=
  { kind := .table, name := "a", id := 0, occurs := 1, depth := 0,
    marked := false }

def c4v2 : RuleVar :=
  { kind := .table, name := "b", id := 1, occurs := 1, depth := 0,
    marked := false }

/-- A data-yielding operation in a nonzero frame (witness input for the
copy-guard characterization). -/
def c5_demo_op : RuleOp := { (default : RuleOp) with kind := .select, frame := 1 }

/-- The concrete world of the inclusive-transitive counterexample: the
relation R is Transitive, TransitiveSelf (inclusive) and Final; the facts
are R(XWing, Machine) and R(Machine, Thing) (the example of the TODO
comment at rules.c line 2201). -/
def rR : Entity := 20

def eXWing : Entity := 21

def eMachine : Entity := 22

def eThing : Entity := 23

def c1World : World :=
  ⟨[⟨[Id.pair rR eMachine], [eXWing]⟩,
    ⟨[Id.pair rR eThing], [eMachine]⟩,
    ⟨[], [eThing]⟩,
    ⟨[Id.plain EcsTransitive, Id.plain EcsFinal, Id.plain EcsTransitiveSelf],
     [rR]⟩]⟩

/-- The term R(., _Y): neither the subject nor the object is known before
the term is evaluated. -/
def c1Term : Term :=
  { pred := ⟨rR, none, .isEntity⟩,
    subj := ⟨EcsThis, none, .isVariable⟩,
    obj := ⟨0, some "_Y", .isVariable⟩,
    oper := .and, objSet := true, subjSet := true, subjNothing := false,
    id := Id.pair rR 0 }

def c1Rule : Rule := (ecs_rule_init c1World [c1Term]).toOption.getD default

def c1Yields : List YieldRec := (run_full c1World c1Rule 100).getD []

/-- Root-election counterexample input: the distinguished this subject
occurs once, the subject variable _X occurs twice. -/
def c2Terms : List Term :=
  [{ pred := ⟨80, none, .isEntity⟩, subj := ⟨EcsThis, none, .isVariable⟩,
     obj := ⟨0, none, .default⟩, oper := .and, objSet := false,
     subjSet := true, subjNothing := false, id := Id.plain 80 },
   { pred := ⟨81, none, .isEntity⟩, subj := ⟨0, some "_X", .isVariable⟩,
     obj := ⟨0, none, .default⟩, oper := .and, objSet := false,
     subjSet := true, subjNothing := false, id := Id.plain 81 },
   { pred := ⟨82, none, .isEntity⟩, subj := ⟨0, some "_X", .isVariable⟩,
     obj := ⟨0, none, .default⟩, oper := .and, objSet := false,
     subjSet := true, subjNothing := false, id := Id.plain 82 }]

/-- A Not term whose (fresh) subject variable is introduced by the Not term
itself: TagA(Bob), !TagB(_X). -/
def cBob : Entity := 40

def cTagA : Entity := 41

def cTagB : Entity := 42

def c6World : World :=
  ⟨[⟨[Id.plain cTagA], [cBob]⟩,
    ⟨[Id.plain EcsFinal], [cTagA, cTagB]⟩]⟩

def c6Terms : List Term :=
  [{ pred := ⟨cTagA, none, .isEntity⟩, subj := ⟨cBob, none, .isEntity⟩,
     obj := ⟨0, none, .default⟩, oper := .and, objSet := false,
     subjSet := true, subjNothing := false, id := Id.plain cTagA },
   { pred := ⟨cTagB, none, .isEntity⟩, subj := ⟨0, some "_X", .isVariable⟩,
     obj := ⟨0, none, .default⟩, oper := .not, objSet := false,
     subjSet := true, subjNothing := false, id := Id.plain cTagB }]

def c6Rule : Rule := (ecs_rule_init c6World c6Terms).toOption.getD default

/-- Whether a term mentions the variable with the given source name in any
of its three positions. -/
def termMentionsVarName (n : String) (t : Term) : Bool :=
  term_id_var_name t.pred == some n || term_id_var_name t.subj == some n ||
    term_id_var_name t.obj == some n

/-- A lone Not term (witness input for the degenerate-shape errors). -/
def c7NotTerm : Term :=
  { pred := ⟨cTagB, none, .isEntity⟩, subj := ⟨EcsThis, none, .isVariable⟩,
    obj := ⟨0, none, .default⟩, oper := .not, objSet := false,
    subjSet := true, subjNothing := false, id := Id.plain cTagB }

/-- Witness input for the With inclusive special case: a With on a
transitive + inclusive pair R(Bob, Bob) with literal subject Bob. -/
def c1w_op : RuleOp :=
  { (default : RuleOp) with
    kind := .withOp,
    filter := { pred := rR, obj := cBob, reg_mask := 0, transitive := true,
                final := true, inclusive := true, obj_0 := false },
    subject := cBob, r_in := UINT8_MAX, frame := 1, term := 0 }

def c1w_iter : RuleIter :=
  { registers := [], columns := [], op_ctx := [], op := 0, redo := false,
    ids := [default], subjects := [0], vals := [] }


/-- Witness input for the amended Not-check theorem: the variable _P is
introduced by a plain term and used as the predicate of a Not term. -/
def c6wTermA : Term :=
  { pred := ⟨0, some "_P", .isVariable⟩, subj := ⟨EcsThis, none, .isVariable⟩,
    obj := ⟨0, none, .default⟩, oper := .and, objSet := false,
    subjSet := true, subjNothing := false, id := Id.plain 0 }

def c6wTermNot : Term :=
  { pred := ⟨0, some "_P", .isVariable⟩, subj := ⟨EcsThis, none, .isVariable⟩,
    obj := ⟨0, none, .default⟩, oper := .not, objSet := false,
    subjSet := true, subjNothing := false, id := Id.plain 0 }

def c6wTerms : List Term := [c6wTermA, c6wTermNot]

/-- The scan result for the witness terms (the scan succeeds; the default is
unreachable). -/
def c6wSt : RuleBuild :=
  (scan_variables c6wTerms).toOption.getD ⟨[], 0, [], 0, []⟩

set_option maxRecDepth 40000

-- Supporting lemmas about the variable scan.

theorem scan_roots_bump_subject_count (acc : RootScan) (i : Nat) :
    (scan_roots_bump acc i).subject_count = acc.subject_count := by
  simp only [scan_roots_bump]
  split <;> rfl

theorem scan_roots_go_ok (terms : List Term) : ∀ acc : RootScan,
    acc.subject_count = 0 →
    ∃ acc2, scan_roots_go acc terms = Except.ok acc2 := by
  induction terms with
  | nil => intro acc _; exact ⟨acc, rfl⟩
  | cons term rest ih =>
      intro acc h
      by_cases hv : term_id_is_variable term.subj = true
      · cases hn : term_id_var_name term.subj with
        | none =>
            obtain ⟨acc2, h2⟩ := ih acc h
            exact ⟨acc2, by simp [scan_roots_go, hv, hn, h2]⟩
        | some nm =>
            cases hf : find_variable acc.st.vars VarKind.table nm with
            | some v =>
                obtain ⟨acc2, h2⟩ := ih (scan_roots_bump acc v.id)
                  (by rw [scan_roots_bump_subject_count]; exact h)
                exact ⟨acc2, by simp [scan_roots_go, hv, hn, hf, h2]⟩
            | none =>
                have hcap :
                    ¬(acc.subject_count ≥ ECS_RULE_MAX_VARIABLE_COUNT) := by
                  rw [h]; decide
                obtain ⟨acc2, h2⟩ := ih
                  (scan_roots_bump
                    { acc with
                      st := (create_variable acc.st VarKind.table
                        (some nm)).1 }
                    (create_variable acc.st VarKind.table (some nm)).2)
                  (by rw [scan_roots_bump_subject_count]; exact h)
                exact ⟨acc2, by simp [scan_roots_go, hv, hn, hf, hcap, h2]⟩
      · obtain ⟨acc2, h2⟩ := ih acc h
        exact ⟨acc2, by simp [scan_roots_go, hv, h2]⟩

theorem unconstrained_check_error (st : RuleBuild) (e : ScanError)
    (h : scan_variables_unconstrained_check st = Except.error e) :
    ∃ n, e = ScanError.unconstrainedVariable n := by
  unfold scan_variables_unconstrained_check at h
  revert h
  generalize st.vars = l
  induction l with
  | nil => intro h; simp [unconstrained_check_go] at h
  | cons v rest ih =>
      intro h
      by_cases hc : v.id < st.subject_variable_count ∧ v.depth = UINT8_MAX
      · simp [unconstrained_check_go, hc] at h
        exact ⟨v.name, h.symm⟩
      · rw [unconstrained_check_go, if_neg hc] at h
        exact ih h

theorem not_check_error (st : RuleBuild) (l : List Term) (e : ScanError)
    (h : not_check_go st l = Except.error e) :
    (∃ n, e = ScanError.missingPredicateVariable n) ∨
    (∃ n, e = ScanError.missingObjectVariable n) := by
  induction l with
  | nil => simp [not_check_go] at h
  | cons t rest ih =>
      by_cases h1 : t.oper ≠ TermOper.not
      · rw [not_check_go, if_pos h1] at h
        exact ih h
      · by_cases h2 : term_pred st t = none ∧ term_id_is_variable t.pred = true
        · simp [not_check_go, h1, h2] at h
          exact Or.inl ⟨_, h.symm⟩
        · by_cases h3 : term_obj st t = none ∧ term_id_is_variable t.obj = true
          · simp [not_check_go, h1, h2, h3] at h
            exact Or.inr ⟨_, h.symm⟩
          · simp only [not_check_go, if_neg h1, if_neg h2, if_neg h3] at h
            exact ih h

-- Supporting lemmas about run_loop (fuel monotonicity).

theorem run_loop_succ (w : World) (r : Rule) (e : Nat) :
    ∀ (f : Nat) (s : ExecState) (acc out : List YieldRec),
    run_loop w r e f s acc = some out →
    run_loop w r e (f + 1) s acc = some out := by
  intro f
  induction f with
  | zero => intro s acc out h; simp [run_loop] at h
  | succ f ih =>
      intro s acc out h
      unfold run_loop at h ⊢
      cases hs : rule_next_step w r e s with
      | finished => rw [hs] at h; exact h
      | yielded y s2 => rw [hs] at h; exact ih s2 (y :: acc) out h
      | next s2 => rw [hs] at h; exact ih s2 acc out h

theorem run_loop_le (w : World) (r : Rule) (e : Nat) (f g : Nat)
    (hfg : f ≤ g) (s : ExecState) (acc out : List YieldRec)
    (h : run_loop w r e f s acc = some out) :
    run_loop w r e g s acc = some out := by
  induction hfg with
  | refl => exact h
  | step _ ih => exact run_loop_succ w r e _ s acc out ih

-- Supporting lemmas about find_variable.

theorem find_variable_none (vars : List RuleVar) (kind : VarKind)
    (name : String) (h : find_variable vars kind name = none) (v : RuleVar)
    (hv : v ∈ vars) :
    ¬(v.name = get_var_name name ∧
      (kind = VarKind.unknown ∨ kind = v.kind)) := by
  intro hc
  obtain ⟨h1, h2⟩ := hc
  simp only [find_variable] at h
  have := List.find?_eq_none.mp h v hv
  apply this
  simp only [h1, beq_self_eq_true, Bool.true_and]
  rcases h2 with h2 | h2 <;> simp [← h2]

theorem find_variable_some (vars : List RuleVar) (kind : VarKind)
    (name : String) (v : RuleVar)
    (h : find_variable vars kind name = some v) :
    v ∈ vars ∧ v.name = get_var_name name ∧
      (kind = VarKind.unknown ∨ kind = v.kind) := by
  simp only [find_variable] at h
  have hmem := List.mem_of_find?_eq_some h
  have hpred := List.find?_some h
  simp only [Bool.and_eq_true, beq_iff_eq, Bool.or_eq_true] at hpred
  exact ⟨hmem, hpred.1, hpred.2⟩



theorem reg_get_of_registers_eq (r : Rule) (it it' : RuleIter)
    (h : it.registers = it'.registers) (f : Int) (v : Nat) :
    reg_get r it f v = reg_get r it' f v := by
  unfold reg_get
  rw [h]

theorem foldl_preserves_registers {b : Type} (g : RuleIter → b → RuleIter)
    (hg : ∀ it x, (g it x).registers = it.registers) (l : List b) :
    ∀ it : RuleIter, (l.foldl g it).registers = it.registers := by
  induction l with
  | nil => intro it; rfl
  | cons x rest ih =>
      intro it
      rw [List.foldl_cons, ih, hg]

theorem listGetI_replicate_default {a : Type} [Inhabited a] (n : Nat)
    (i : Int) : listGetI (List.replicate n (default : a)) i = default := by
  unfold listGetI
  split
  · rfl
  · rcases h : (List.replicate n (default : a))[i.toNat]? with _ | v
    · rfl
    · have := List.eq_of_mem_replicate (List.getElem?_mem h)
      simp [this]

theorem reg_set_registers_length (r : Rule) (it : RuleIter) (f : Int)
    (v : Nat) (reg : RuleReg) :
    (reg_set r it f v reg).registers.length = it.registers.length := by
  unfold reg_set listSetI
  split <;> simp

theorem reg_get_set_ne0 (r : Rule) (it : RuleIter) (i j : Nat)
    (hij : j ≠ i) (reg : RuleReg) :
    reg_get r (reg_set r it 0 j reg) 0 i = reg_get r it 0 i := by
  unfold reg_get reg_set listGetI listSetI regIndex
  have h0 : ((0 : Int) * (r.variable_count : Int) + (j : Int)) = (j : Int) := by ring
  have h1 : ((0 : Int) * (r.variable_count : Int) + (i : Int)) = (i : Int) := by ring
  rw [h0, h1]
  simp only [if_neg (by omega : ¬((j : Int) < 0)),
    if_neg (by omega : ¬((i : Int) < 0))]
  rw [List.getElem?_set_ne (by omega : (Int.toNat (j : Int)) ≠ (Int.toNat (i : Int)))]

theorem reg_get_set_eq0 (r : Rule) (it : RuleIter) (i : Nat)
    (hi : i < it.registers.length) (reg : RuleReg) :
    reg_get r (reg_set r it 0 i reg) 0 i = reg := by
  unfold reg_get reg_set listGetI listSetI regIndex
  have h1 : ((0 : Int) * (r.variable_count : Int) + (i : Int)) = (i : Int) := by ring
  rw [h1]
  simp only [if_neg (by omega : ¬((i : Int) < 0))]
  rw [show (Int.toNat (i : Int)) = i by omega]
  rw [List.getElem?_set_self hi]
  rfl



theorem ids_set_registers (it : RuleIter) (t : Int) (v : Id) :
    (ids_set it t v).registers = it.registers := by
  unfold ids_set; split <;> rfl

theorem subjects_set_registers (it : RuleIter) (t : Int) (v : Entity) :
    (subjects_set it t v).registers = it.registers := by
  unfold subjects_set; split <;> rfl

theorem col_set_registers (r : Rule) (it : RuleIter) (f t v : Int) :
    (col_set r it f t v).registers = it.registers := rfl

theorem c9_step_other (w : World) (r : Rule) (it : RuleIter) (j i : Nat)
    (hij : j ≠ i) :
    reg_get r (if (r.getVar j).kind == VarKind.entity then
        entity_reg_set w r it 0 j EcsWildcard
      else table_reg_set r it 0 j none) 0 i = reg_get r it 0 i := by
  split
  · unfold entity_reg_set
    split
    · exact reg_get_set_ne0 r it i j hij _
    · rfl
  · unfold table_reg_set
    exact reg_get_set_ne0 r it i j hij _

theorem c9_step_length (w : World) (r : Rule) (it : RuleIter) (j : Nat) :
    ((if (r.getVar j).kind == VarKind.entity then
        entity_reg_set w r it 0 j EcsWildcard
      else table_reg_set r it 0 j none)).registers.length =
      it.registers.length := by
  split
  · unfold entity_reg_set
    split
    · exact reg_set_registers_length r it 0 j _
    · rfl
  · unfold table_reg_set
    exact reg_set_registers_length r it 0 j _

theorem c9_fold_untouched (w : World) (r : Rule) :
    ∀ (l : List Nat) (it : RuleIter) (i : Nat), (∀ j ∈ l, j ≠ i) →
    reg_get r (l.foldl (fun it (j : Nat) =>
      if (r.getVar j).kind == VarKind.entity then
        entity_reg_set w r it 0 j EcsWildcard
      else table_reg_set r it 0 j none) it) 0 i = reg_get r it 0 i := by
  intro l
  induction l with
  | nil => intro it i _; rfl
  | cons x rest ih =>
      intro it i h
      rw [List.foldl_cons]
      rw [ih _ i (fun j hj => h j (List.mem_cons_of_mem x hj))]
      exact c9_step_other w r it x i (h x (List.mem_cons_self x rest))

theorem c9_fold_length (w : World) (r : Rule) :
    ∀ (l : List Nat) (it : RuleIter),
    ((l.foldl (fun it (j : Nat) =>
      if (r.getVar j).kind == VarKind.entity then
        entity_reg_set w r it 0 j EcsWildcard
      else table_reg_set r it 0 j none) it)).registers.length =
      it.registers.length := by
  intro l
  induction l with
  | nil => intro it; rfl
  | cons x rest ih =>
      intro it
      rw [List.foldl_cons, ih, c9_step_length]

theorem c9_step_self (w : World) (r : Rule) (it : RuleIter) (i : Nat)
    (hlen : i < it.registers.length) :
    reg_get r (if (r.getVar i).kind == VarKind.entity then
        entity_reg_set w r it 0 i EcsWildcard
      else table_reg_set r it 0 i none) 0 i =
      (if (r.getVar i).kind == VarKind.entity then
        { reg_get r it 0 i with entity := EcsWildcard }
      else { table := none, offset := 0, count := 0, entity := 0 }) := by
  by_cases hk : ((r.getVar i).kind == VarKind.entity) = true
  · rw [if_pos hk, if_pos hk]
    unfold entity_reg_set
    rw [if_pos (show ecs_is_valid w EcsWildcard = true from rfl)]
    exact reg_get_set_eq0 r it i hlen _
  · rw [if_neg hk, if_neg hk]
    unfold table_reg_set
    exact reg_get_set_eq0 r it i hlen _

theorem c9_init_fold (w : World) (r : Rule) :
    ∀ (n : Nat) (it : RuleIter) (i : Nat), i < n →
    i < it.registers.length →
    reg_get r ((List.range n).foldl (fun it (j : Nat) =>
      if (r.getVar j).kind == VarKind.entity then
        entity_reg_set w r it 0 j EcsWildcard
      else table_reg_set r it 0 j none) it) 0 i =
      (if (r.getVar i).kind == VarKind.entity then
        { reg_get r it 0 i with entity := EcsWildcard }
      else { table := none, offset := 0, count := 0, entity := 0 }) := by
  intro n
  induction n with
  | zero => intro it i h; omega
  | succ n ih =>
      intro it i hin hlen
      rw [List.range_succ, List.foldl_append, List.foldl_cons, List.foldl_nil]
      by_cases hi : i < n
      · rw [c9_step_other w r _ n i (by omega)]
        exact ih it i hi hlen
      · have hieq : i = n := by omega
        subst hieq
        have hFlen : i < (((List.range i).foldl (fun it (j : Nat) =>
            if (r.getVar j).kind == VarKind.entity then
              entity_reg_set w r it 0 j EcsWildcard
            else table_reg_set r it 0 j none) it)).registers.length := by
          rw [c9_fold_length]; exact hlen
        have hFget := c9_fold_untouched w r (List.range i) it i
          (fun j hj => by have := List.mem_range.mp hj; omega)
        rw [c9_step_self w r _ i hFlen]
        rw [hFget]

theorem ecs_rule_iter_reg0 (w : World) (r : Rule) (i : Nat)
    (hvar : i < r.variable_count) (hops : 0 < r.operations.length) :
    reg_get r (ecs_rule_iter w r) 0 i =
      (if (r.getVar i).kind == VarKind.entity then
        { (default : RuleReg) with entity := EcsWildcard }
      else { table := none, offset := 0, count := 0, entity := 0 }) := by
  unfold ecs_rule_iter
  rw [reg_get_of_registers_eq r _ _ (foldl_preserves_registers _ ?hg4 _ _)]
  rw [reg_get_of_registers_eq r _ _ (foldl_preserves_registers _ ?hg3 _ _)]
  rw [c9_init_fold w r r.variable_count _ i hvar ?hlen]
  case hg4 =>
    intro it x
    dsimp only
    split
    · exact ids_set_registers _ _ _
    · rfl
  case hg3 =>
    intro it x
    dsimp only
    split
    · exact subjects_set_registers _ _ _
    · rfl
  case hlen =>
    rw [foldl_preserves_registers _ ?hg1]
    · simp only [List.length_replicate]
      exact lt_of_lt_of_le hvar (Nat.le_mul_of_pos_left _ hops)
    case hg1 =>
      intro it x
      dsimp only
      rfl
  have hbase : reg_get r ((List.range r.terms.length).foldl
      (fun it i => col_set r it 0 (i : Int) (-1))
      { registers := List.replicate (r.operations.length * r.variable_count)
          default,
        columns := List.replicate (r.operations.length * r.terms.length) 0,
        op_ctx := List.replicate r.operations.length OpCtx.empty,
        op := 0, redo := false,
        ids := List.replicate r.terms.length default,
        subjects := List.replicate r.terms.length 0,
        vals := List.replicate r.variable_count 0 }) 0 i =
      (default : RuleReg) := by
    rw [reg_get_of_registers_eq r _ _ (foldl_preserves_registers _
      (fun it (x : Int) => col_set_registers r it 0 x (-1)) _ _)]
    unfold reg_get
    exact listGetI_replicate_default _ _
  rw [hbase]

theorem c9_unbound_wildcards (w : World) (r : Rule) (i : Nat)
    (hvar : i < r.variable_count) (hops : 0 < r.operations.length) :
    ((r.getVar i).kind = VarKind.entity →
      (reg_get r (ecs_rule_iter w r) 0 i).entity = EcsWildcard ∧
      entity_reg_get w r (ecs_rule_iter w r) 0 i = EcsWildcard) ∧
    ((r.getVar i).kind = VarKind.table →
      (reg_get r (ecs_rule_iter w r) 0 i).table = none) ∧
    (∀ (it : RuleIter) (f : Int) (v : Nat),
      (reg_get r it f v).entity = 0 →
      entity_reg_get w r it f v = EcsWildcard) := by
  have hreg := ecs_rule_iter_reg0 w r i hvar hops
  refine ⟨fun hk => ?_, fun hk => ?_, fun it f v h0 => ?_⟩
  · rw [hk] at hreg
    rw [if_pos (by rfl)] at hreg
    have he : (reg_get r (ecs_rule_iter w r) 0 i).entity = EcsWildcard := by
      rw [hreg]
    refine ⟨he, ?_⟩
    simp only [entity_reg_get, he]
    rfl
  · rw [hk] at hreg
    rw [if_neg (by decide)] at hreg
    rw [hreg]
  · simp [entity_reg_get, h0]



theorem find_variable_some2 (vars : List RuleVar) (kind : VarKind)
    (name : String) (v : RuleVar)
    (h : find_variable vars kind name = some v) :
    v ∈ vars ∧ v.name = get_var_name name := by
  simp only [find_variable] at h
  have hmem := List.mem_of_find?_eq_some h
  have hpred := List.find?_some h
  simp only [Bool.and_eq_true, beq_iff_eq] at hpred
  exact ⟨hmem, hpred.1⟩

theorem not_check_go_ok_mem (st : RuleBuild) :
    ∀ (l : List Term), not_check_go st l = Except.ok () →
    ∀ t ∈ l, t.oper = TermOper.not →
    ¬(term_pred st t = none ∧ term_id_is_variable t.pred = true) ∧
    ¬(term_obj st t = none ∧ term_id_is_variable t.obj = true) := by
  intro l
  induction l with
  | nil => intro _ t ht; cases ht
  | cons s rest ih =>
      intro h t ht hnot
      by_cases h1 : s.oper ≠ TermOper.not
      · rw [not_check_go, if_pos h1] at h
        rcases List.mem_cons.mp ht with rfl | ht'
        · exact absurd hnot h1
        · exact ih h t ht' hnot
      · by_cases h2 : term_pred st s = none ∧ term_id_is_variable s.pred = true
        · simp only [not_check_go, if_neg h1, if_pos h2] at h
          exact Except.noConfusion h
        · by_cases h3 : term_obj st s = none ∧ term_id_is_variable s.obj = true
          · simp only [not_check_go, if_neg h1, if_neg h2, if_pos h3] at h
            exact Except.noConfusion h
          · simp only [not_check_go, if_neg h1, if_neg h2, if_neg h3] at h
            rcases List.mem_cons.mp ht with rfl | ht'
            · exact ⟨h2, h3⟩
            · exact ih h t ht' hnot

theorem term_id_to_var_resolves (st : RuleBuild) (tid : TermId)
    (hv : term_id_is_variable tid = true)
    (hne : term_id_to_var st tid ≠ none) :
    ∃ n, term_id_var_name tid = some n ∧
      ∃ v ∈ st.vars, v.name = get_var_name n := by
  have hv2 : (tid.varSpec == VarSpec.isVariable) = true := hv
  cases hn : term_id_var_name tid with
  | none => exact absurd (by simp [term_id_to_var, hv2, hn]) hne
  | some n =>
      cases hf : find_variable st.vars VarKind.unknown n with
      | none => exact absurd (by simp [term_id_to_var, hv2, hn, hf]) hne
      | some v =>
          obtain ⟨hmem, hname⟩ := find_variable_some2 _ _ _ _ hf
          exact ⟨n, rfl, v, hmem, hname⟩

theorem mem_sort_insert (v : RuleVar) :
    ∀ (l : List RuleVar) (x : RuleVar),
    x ∈ sort_variables.insert v l ↔ x = v ∨ x ∈ l := by
  intro l
  induction l with
  | nil => intro x; simp [sort_variables.insert]
  | cons w rest ih =>
      intro x
      rw [sort_variables.insert]
      split
      all_goals simp only [List.mem_cons, ih]
      all_goals tauto

theorem mem_sort_go (x : RuleVar) :
    ∀ l : List RuleVar, x ∈ sort_variables.go l ↔ x ∈ l := by
  intro l
  induction l with
  | nil => simp [sort_variables.go]
  | cons v rest ih =>
      rw [sort_variables.go, mem_sort_insert]
      simp only [List.mem_cons, ih]

theorem mem_sort_variables (x : RuleVar) (l : List RuleVar) :
    x ∈ sort_variables l ↔ x ∈ l :=
  mem_sort_go x l

theorem renumber_vars_name (u : RuleVar) :
    ∀ (l : List RuleVar) (i : Nat), u ∈ l →
    ∃ v ∈ renumber_vars i l, v.name = u.name := by
  intro l
  induction l with
  | nil => intro i h; cases h
  | cons x rest ih =>
      intro i h
      rcases List.mem_cons.mp h with rfl | h'
      · exact ⟨{ u with id := i }, List.mem_cons_self _ _, rfl⟩
      · obtain ⟨v, hv, hn⟩ := ih (i + 1) h'
        exact ⟨v, List.mem_cons_of_mem _ hv, hn⟩

theorem c6_from_checks (st2 stf : RuleBuild) (terms : List Term)
    (hnc : not_check_go st2 terms = Except.ok ())
    (hvars : stf.vars = renumber_vars 0 (sort_variables st2.vars))
    (t : Term) (ht : t ∈ terms) (hnot : t.oper = TermOper.not) :
    (term_id_is_variable t.pred = true →
      ∃ n, term_id_var_name t.pred = some n ∧
        ∃ v ∈ stf.vars, v.name = get_var_name n) ∧
    (term_id_is_variable t.obj = true →
      ∃ n, term_id_var_name t.obj = some n ∧
        ∃ v ∈ stf.vars, v.name = get_var_name n) := by
  have hmem := not_check_go_ok_mem st2 terms hnc t ht hnot
  constructor
  · intro hpv
    have hpred_ne : term_id_to_var st2 t.pred ≠ none := fun hno =>
      hmem.1 ⟨hno, hpv⟩
    obtain ⟨n, hn, v0, hv0, hname⟩ :=
      term_id_to_var_resolves st2 t.pred hpv hpred_ne
    refine ⟨n, hn, ?_⟩
    have hv0s := (mem_sort_variables v0 st2.vars).mpr hv0
    obtain ⟨v, hv, hvn⟩ := renumber_vars_name v0 _ 0 hv0s
    refine ⟨v, ?_, by rw [hvn, hname]⟩
    rw [hvars]
    exact hv
  · intro hov
    have hobj_ne : term_obj st2 t ≠ none := fun hno =>
      hmem.2 ⟨hno, hov⟩
    have hov2 : term_id_to_var st2 t.obj ≠ none := by
      unfold term_obj at hobj_ne
      intro hno
      apply hobj_ne
      split
      · exact hno
      · rfl
    obtain ⟨n, hn, v0, hv0, hname⟩ :=
      term_id_to_var_resolves st2 t.obj hov hov2
    refine ⟨n, hn, ?_⟩
    have hv0s := (mem_sort_variables v0 st2.vars).mpr hv0
    obtain ⟨v, hv, hvn⟩ := renumber_vars_name v0 _ 0 hv0s
    refine ⟨v, ?_, by rw [hvn, hname]⟩
    rw [hvars]
    exact hv

theorem c6_not_resolve (terms : List Term) (st : RuleBuild)
    (hscan : scan_variables terms = Except.ok st)
    (hroot : elected_root terms ≠ none)
    (t : Term) (ht : t ∈ terms) (hnot : t.oper = TermOper.not) :
    (term_id_is_variable t.pred = true →
      ∃ n, term_id_var_name t.pred = some n ∧
        ∃ v ∈ st.vars, v.name = get_var_name n) ∧
    (term_id_is_variable t.obj = true →
      ∃ n, term_id_var_name t.obj = some n ∧
        ∃ v ∈ st.vars, v.name = get_var_name n) := by
  unfold scan_variables at hscan
  cases hacc : scan_variables_find_roots terms with
  | error e =>
      rw [hacc] at hscan
      simp only [Bind.bind, Except.bind] at hscan
      exact Except.noConfusion hscan
  | ok acc =>
      rw [hacc] at hscan
      simp only [Bind.bind, Except.bind] at hscan
      unfold elected_root at hroot
      rw [hacc] at hroot
      have hroot2 : elect_root acc ≠ none := hroot
      cases helect : elect_root acc with
      | none => exact absurd helect hroot2
      | some root =>
          rw [helect] at hscan
          split at hscan
          · rename_i heq
            exact Option.noConfusion heq
          · rename_i rv heq
            split at hscan
            · exact Except.noConfusion hscan
            · rename_i u hunc
              split at hscan
              · exact Except.noConfusion hscan
              · rename_i u2 hnc
                cases u2
                have hst := Except.ok.inj hscan
                exact c6_from_checks _ st terms hnc (by rw [← hst]) t ht hnot



-- The claim theorems, their witnesses and counterexamples.

/-- C1 (amended): the With operation on a transitive and inclusive pair
passes immediately when the subject is resolved (here through the literal
subject of the operation, r_in = UINT8_MAX) and equals the filter's
resolved object (the inclusive special case of eval_with, rules.c lines
3536-3564). -/
theorem c1_inclusive_with (w : World) (r : Rule) (it : RuleIter)
    (op : RuleOp) (oi : Nat)
    (h1 : op.filter.transitive = true) (h2 : op.filter.inclusive = true)
    (h3 : op.r_in = UINT8_MAX) (h4 : op.subject ≠ 0)
    (h5 : (pair_to_filter w r it op op.filter).obj_wildcard = false)
    (h6 : op.subject = (pair_to_filter w r it op op.filter).mask.lo) :
    (eval_with w r it op oi false).1 = true := by
  simp [eval_with, h1, h2, h3, h4, h5, ← h6]

/-- C1 witness: the inclusive With R(Bob, Bob) with literal subject Bob
passes. -/
theorem c1_inclusive_with_witness :
    (eval_with c6World default c1w_iter c1w_op 0 false).1 = true :=
  c1_inclusive_with c6World default c1w_iter c1w_op 0 (by decide) (by decide)
    (by decide) (by decide) (by decide) (by decide)

/-- C1 counterexample: for the rule R(., _Y) over an inclusive-transitive R
with facts R(XWing, Machine) and R(Machine, Thing), the full iteration
yields the binding this = XWing, _Y = Machine but never a reflexive
binding _Y = XWing on the XWing row (vals never contains XWing), although
the compiled program carries the transitive + inclusive pair. -/
theorem c1_reflexive_missing_counterexample :
    (ecs_rule_init c1World [c1Term]).toOption.isSome = true ∧
    (term_to_pair c1World
      ((scan_variables [c1Term]).toOption.getD ⟨[], 0, [], 0, []⟩)
      c1Term).transitive = true ∧
    (term_to_pair c1World
      ((scan_variables [c1Term]).toOption.getD ⟨[], 0, [], 0, []⟩)
      c1Term).inclusive = true ∧
    (run_full c1World c1Rule 100).isSome = true ∧
    (c1Yields.any (fun y =>
      (yield_this_entities c1World y).contains eXWing &&
        y.vals.contains eMachine)) = true ∧
    (c1Yields.any (fun y => y.vals.contains eXWing)) = false := by decide

/-- C2 (code bug): the distinguished this subject occurs once and the
subject variable _X occurs twice; this_var keeps its UINT8_MAX sentinel
(it is never assigned in the source, rules.c line 1347), so root election
picks the most occurring variable _X (id 1) instead of giving precedence
to the this variable (id 0). -/
theorem c2_root_election_bug :
    (scan_variables_find_roots c2Terms).toOption.map (fun acc =>
      (acc.this_var, acc.max_occur_var,
       (acc.st.getVar 0).name, (acc.st.getVar 0).occurs,
       (acc.st.getVar 1).name, (acc.st.getVar 1).occurs)) =
      some (UINT8_MAX, 1, ".", 1, "_X", 2) ∧
    elected_root c2Terms = some 1 := by decide

/-- C3 (code bug): scan_variables never reports the too-many-variables
error, whatever the term list: subject_count is initialized to zero and
never incremented (rules.c line 1344), so the cap comparison at rules.c
line 1370 never fires. -/
theorem c3_never_too_many (terms : List Term) :
    reports_too_many (scan_variables terms) = false := by
  unfold scan_variables scan_variables_find_roots
  obtain ⟨acc, hacc⟩ := scan_roots_go_ok terms
    { st := { vars := [], subject_variable_count := 0, operations := [],
              frame_count := 0, terms := terms },
      subject_count := 0, this_var := UINT8_MAX, max_occur := 0,
      max_occur_var := UINT8_MAX } rfl
  rw [hacc]
  simp only [Bind.bind, Except.bind]
  split
  · rfl
  · split
    · rename_i err herr
      obtain ⟨n, hn⟩ := unconstrained_check_error _ _ herr
      rw [hn]
      rfl
    · split
      · rename_i err herr
        rcases not_check_error _ _ _ herr with ⟨n, hn⟩ | ⟨n, hn⟩ <;>
          rw [hn] <;> rfl
      · rfl

/-- C4 (amended): the comparator decides kind ascending, then depth
ascending, then occurrences with ties mapping to -1; the trailing id
comparison of the source is unreachable because both branches of the
preceding occurrence comparison return. -/
theorem c4_comparator_amended (v1 v2 : RuleVar) :
    compare_variable v1 v2 = compare_variable_amended v1 v2 := by
  unfold compare_variable compare_variable_amended
  split_ifs <;> omega

/-- C4 counterexample: two variables equal in kind, depth and occurrences
and differing in id compare as -1 in both directions, while the claimed
four-key comparator orders them by descending id. -/
theorem c4_comparator_counterexample :
    compare_variable c4v1 c4v2 = -1 ∧ compare_variable c4v2 c4v1 = -1 ∧
    compare_variable_claimed c4v1 c4v2 = 1 ∧
    compare_variable_claimed c4v2 c4v1 = -1 := by decide

/-- C5 (amended): under the execution invariant last_frame ≤ op.frame, the
frame-copy guard of the interpreter loop holds exactly when this is not a
redo, the operation is not control flow, the operation frame is nonzero
and it strictly exceeds last_frame. -/
theorem c5_guard_iff (redo : Bool) (op : RuleOp) (lf : Int)
    (h : lf ≤ (op.frame : Int)) :
    rule_next_copy_guard redo op lf = true ↔
      (redo = false ∧ is_control_flow op = false ∧ 0 < op.frame ∧
       lf < (op.frame : Int)) := by
  cases redo <;> cases hcf : is_control_flow op
  all_goals simp [rule_next_copy_guard, hcf]
  all_goals omega

/-- C5 witness: a Select at frame 1 dispatched fresh with last_frame 0
copies. -/
theorem c5_guard_witness :
    rule_next_copy_guard false c5_demo_op 0 = true ↔
      (false = false ∧ is_control_flow c5_demo_op = false ∧
       0 < c5_demo_op.frame ∧ (0 : Int) < (c5_demo_op.frame : Int)) :=
  c5_guard_iff false c5_demo_op 0 (by decide)

/-- C5 counterexample: the first dispatched operation (Input, frame 0,
last_frame -1, redo false) satisfies the claimed condition frame >
last_frame but the code's guard rejects it through the frame ≠ 0
conjunct. -/
theorem c5_copy_guard_counterexample :
    (ecs_rule_iter c1World c1Rule).redo = false ∧
    (ecs_rule_iter c1World c1Rule).op = 0 ∧
    ((c1Rule.operations[0]?).getD default).kind = OpKind.input ∧
    ((c1Rule.operations[0]?).getD default).frame = 0 ∧
    rule_next_copy_guard false ((c1Rule.operations[0]?).getD default)
      (-1) = false ∧
    claimed_copy_guard false ((c1Rule.operations[0]?).getD default)
      (-1) = true := by decide

/-- C7: ecs_rule_init fails with the no-terms error exactly on the empty
term list, and with the only-Not-terms error exactly when the list is
nonempty and every term carries the Not operator. -/
theorem c7_init_errors (w : World) (terms : List Term) :
    (ecs_rule_init w terms = Except.error InitError.noTerms ↔ terms = []) ∧
    (ecs_rule_init w terms = Except.error InitError.onlyNotTerms ↔
      terms ≠ [] ∧ ∀ t ∈ terms, t.oper = TermOper.not) := by
  unfold ecs_rule_init
  by_cases h0 : terms.length = 0
  · have he : terms = [] := List.length_eq_zero.mp h0
    subst he
    simp
  · have hne : terms ≠ [] := fun h => h0 (by simp [h])
    cases hall : terms.all (fun t => t.oper == TermOper.not) with
    | true =>
        have hA : ∀ t ∈ terms, t.oper = TermOper.not := by
          intro t ht
          exact beq_iff_eq.mp (List.all_eq_true.mp hall t ht)
        constructor
        · simp [h0, hall, hne]
        · simp only [h0, hall, if_neg h0, if_pos rfl]
          exact ⟨fun _ => ⟨hne, hA⟩, fun _ => rfl⟩
    | false =>
        have hnall : ¬(∀ t ∈ terms, t.oper = TermOper.not) := by
          intro hA
          have : terms.all (fun t => t.oper == TermOper.not) = true :=
            List.all_eq_true.mpr (fun t ht => beq_iff_eq.mpr (hA t ht))
          rw [hall] at this
          exact Bool.false_ne_true this
        cases hscan : scan_variables terms with
        | error e => simp [h0, hall, hscan, hne, hnall]
        | ok st => simp [h0, hall, hscan, hne, hnall]

/-- C7 witness: the empty list and a lone Not term produce the two
errors. -/
theorem c7_init_errors_witness :
    ecs_rule_init c6World ([] : List Term) =
      Except.error InitError.noTerms ∧
    ecs_rule_init c6World [c7NotTerm] =
      Except.error InitError.onlyNotTerms :=
  ⟨(c7_init_errors c6World []).1.mpr rfl,
   (c7_init_errors c6World [c7NotTerm]).2.mpr
     ⟨by decide, by decide⟩⟩

/-- C8: iteration is deterministic — any two complete runs of the same
compiled rule over the same world produce the same yield list. -/
theorem c8_det (w : World) (r : Rule) (f1 f2 : Nat)
    (t1 t2 : List YieldRec)
    (h1 : run_full w r f1 = some t1) (h2 : run_full w r f2 = some t2) :
    t1 = t2 := by
  unfold run_full at h1 h2
  rcases Nat.le_total f1 f2 with h | h
  · have := run_loop_le w r (eval_fuel w) f1 f2 h _ _ t1 h1
    rw [this] at h2
    exact Option.some.inj h2
  · have := run_loop_le w r (eval_fuel w) f2 f1 h _ _ t2 h2
    rw [this] at h1
    exact (Option.some.inj h1).symm

/-- C8 witness: two complete runs of the compiled R(., _Y) rule agree. -/
theorem c8_det_witness :
    (run_full c1World c1Rule 100).getD [] =
      (run_full c1World c1Rule 150).getD [] :=
  have h1 : run_full c1World c1Rule 100 =
      some ((run_full c1World c1Rule 100).getD []) := by decide
  have h2 : run_full c1World c1Rule 150 =
      some ((run_full c1World c1Rule 150).getD []) := by decide
  c8_det c1World c1Rule 100 150 _ _ h1 h2

/-- C10: the public variable lookup resolves Entity-kind variables only —
it returns -1 exactly when no Entity-kind variable carries the normalized
name, and any nonnegative result is the id of an Entity-kind variable with
that name. -/
theorem c10_find_var (r : Rule) (name : String) :
    (ecs_rule_find_var r name = -1 ↔
      ∀ v ∈ r.vars, ¬(v.name = get_var_name name ∧
        v.kind = VarKind.entity)) ∧
    (∀ i : Nat, ecs_rule_find_var r name = (i : Int) →
      ∃ v ∈ r.vars, v.id = i ∧ v.name = get_var_name name ∧
        v.kind = VarKind.entity) := by
  cases hf : find_variable r.vars VarKind.entity name with
  | none =>
      constructor
      · simp only [ecs_rule_find_var, hf]
        refine iff_of_true (by trivial) ?_
        intro v hv hc
        exact find_variable_none _ _ _ hf v hv ⟨hc.1, Or.inr hc.2.symm⟩
      · intro i hi
        simp only [ecs_rule_find_var, hf] at hi
        omega
  | some v =>
      obtain ⟨hmem, hname, hkind⟩ := find_variable_some _ _ _ _ hf
      have hk : v.kind = VarKind.entity := by
        rcases hkind with hh | hh
        · exact absurd hh (by decide)
        · exact hh.symm
      constructor
      · simp only [ecs_rule_find_var, hf]
        constructor
        · intro hh; exfalso; omega
        · intro hall
          exact absurd ⟨hname, hk⟩ (hall v hmem)
      · intro i hi
        simp only [ecs_rule_find_var, hf] at hi
        have : v.id = i := by omega
        exact ⟨v, hmem, this, hname, hk⟩

/-- C10 witness: in the compiled TagA(Bob), !TagB(_X) rule the variable _X
exists only in Table form, and the public lookup returns -1 for it. -/
theorem c10_find_var_witness :
    ((ecs_rule_find_var c6Rule "_X" = -1 ↔
      ∀ v ∈ c6Rule.vars, ¬(v.name = get_var_name "_X" ∧
        v.kind = VarKind.entity)) ∧
    (∀ i : Nat, ecs_rule_find_var c6Rule "_X" = (i : Int) →
      ∃ v ∈ c6Rule.vars, v.id = i ∧ v.name = get_var_name "_X" ∧
        v.kind = VarKind.entity)) ∧
    ecs_rule_find_var c6Rule "_X" = -1 ∧
    (c6Rule.vars.any (fun v => v.name == "_X" &&
      (v.kind == VarKind.table))) = true :=
  ⟨c10_find_var c6Rule "_X", by decide, by decide⟩

/-- C6 witness: in a rule whose Not term uses the predicate variable _P
introduced by a plain term, the Not term's variable positions resolve in
the final variable array. -/
theorem c6_not_resolve_witness :
    (term_id_is_variable c6wTermNot.pred = true →
      ∃ n, term_id_var_name c6wTermNot.pred = some n ∧
        ∃ v ∈ c6wSt.vars, v.name = get_var_name n) ∧
    (term_id_is_variable c6wTermNot.obj = true →
      ∃ n, term_id_var_name c6wTermNot.obj = some n ∧
        ∃ v ∈ c6wSt.vars, v.name = get_var_name n) :=
  c6_not_resolve c6wTerms c6wSt (by rfl) (by decide)
    c6wTermNot (List.mem_cons_of_mem c6wTermA (List.mem_cons_self c6wTermNot []))
    rfl

/-- C6 counterexample: the rule TagA(Bob), !TagB(_X) compiles although the
subject variable _X appears only in the Not term — the Not check covers
the predicate and object positions but not the subject, so a Not term can
introduce a fresh variable. -/
theorem c6_fresh_subject_counterexample :
    (ecs_rule_init c6World c6Terms).toOption.isSome = true ∧
    (c6Rule.vars.any (fun v => v.name == "_X")) = true ∧
    (c6Terms.any (fun t => t.oper == TermOper.not &&
      termMentionsVarName "_X" t)) = true ∧
    (c6Terms.all (fun t => t.oper == TermOper.not ||
      !(termMentionsVarName "_X" t))) = true := by decide

/-- C9 witness: in the compiled R(., _Y) rule, variable 1 (_Y, Entity
kind) reads as the wildcard from the freshly created iterator. -/
theorem c9_unbound_wildcards_witness :
    ((c1Rule.getVar 1).kind = VarKind.entity →
      (reg_get c1Rule (ecs_rule_iter c1World c1Rule) 0 1).entity =
        EcsWildcard ∧
      entity_reg_get c1World c1Rule (ecs_rule_iter c1World c1Rule) 0 1 =
        EcsWildcard) ∧
    ((c1Rule.getVar 1).kind = VarKind.table →
      (reg_get c1Rule (ecs_rule_iter c1World c1Rule) 0 1).table = none) ∧
    (∀ (it : RuleIter) (f : Int) (v : Nat),
      (reg_get c1Rule it f v).entity = 0 →
      entity_reg_get c1World c1Rule it f v = EcsWildcard) :=
  c9_unbound_wildcards c1World c1Rule 1 (by decide) (by decide)

end FlecsRules
